import Mathlib

/-!
# Flat broker backend: authentication and listing lifecycle

A shallow embedding of the controllers in `src/controllers/authController.js`,
`src/controllers/flatController.js` and of the request gate in
`src/middlewares/authMiddleware.js`.

Conventions of the embedding.

* The persistence layer (`prismaClient`) is an explicit `Store` value that the
  controllers read and return.  Lookups and updates are those of a reliable
  store; `id` is the primary key of both tables.
* Libraries that the controllers call (bcrypt, jsonwebtoken, `Number`,
  `JSON.parse`, base64 encoding) and the process environment are fields of
  `Env`; the outcome of every call to the object storage service is an input
  of the controller that issues it.
* `new Date()` is an input `now`; dates are rendered as their epoch value.
* Request body fields are `Option String`: absent, or the text received.
-/

namespace FlatBroker

set_option maxRecDepth 20000

/-! ## JavaScript values -/

/-- JavaScript numbers as far as the controllers produce them. -/
inductive JsNum where
  | nan
  | inf (negative : Bool)
  | fin (q : ℚ)
  deriving DecidableEq

/-- JSON values, used for response bodies and for parsed request text. -/
inductive JsVal where
  | null
  | bool (b : Bool)
  | num (n : JsNum)
  | str (s : String)
  | arr (xs : List JsVal)
  | obj (fields : List (String × JsVal))

/-- An integer as a JSON number. -/
def JsVal.int (i : Int) : JsVal := .num (.fin i)

/-- A natural number (an epoch time) as a JSON number. -/
def JsVal.nat (n : Nat) : JsVal := .num (.fin n)

/-- An optional string: `null` when absent. -/
def JsVal.optStr : Option String → JsVal
  | none => .null
  | some s => .str s

/-- An optional integer: `null` when absent. -/
def JsVal.optInt : Option Int → JsVal
  | none => .null
  | some i => .int i

/-- An optional epoch time: `null` when absent. -/
def JsVal.optNat : Option Nat → JsVal
  | none => .null
  | some n => .nat n

/-- The keys of a JSON object (no keys for any other value). -/
def JsVal.keys : JsVal → List String
  | .obj fields => fields.map Prod.fst
  | _ => []

/-- Property lookup on a JSON object. -/
def JsVal.field (k : String) : JsVal → Option JsVal
  | .obj fields => (fields.find? (fun kv => kv.1 == k)).map Prod.snd
  | _ => none

/-- What `res.status(code).json(body)` sends. -/
structure Response where
  status : Nat
  body : JsVal

/-- Truthiness of a request text field: absent and empty are falsy. -/
def truthy : Option String → Bool
  | none => false
  | some s => s != ""

/-! ## Data model -/

/-- Listing status; the three values the controllers write or test. -/
inductive Status where
  | pending
  | approved
  | sold
  deriving DecidableEq

/-- The text stored for a status. -/
def Status.toString : Status → String
  | .pending => "pending"
  | .approved => "approved"
  | .sold => "sold"

/-- A row of the user table. -/
structure User where
  id : Int
  name : String
  email : String
  password : String
  phoneNo : String
  address : String
  pincode : String
  role : String
  profile_image : Option String
  createdAt : Nat
  updatedAt : Nat
  deriving DecidableEq

/-- A row of the flat table. -/
structure Flat where
  id : Int
  user_id : Int
  title : String
  address : String
  price : JsNum
  description : String
  images : List String
  amenities : JsVal
  status : Status
  sold_to_user_id : Option Int
  sold_date : Option Nat
  created_at : Nat

/-- The persistence layer: both tables and their id counters. -/
structure Store where
  users : List User
  flats : List Flat
  nextUserId : Int
  nextFlatId : Int

/-- A user row as the JSON object the client receives for it. -/
def User.toJson (u : User) : JsVal :=
  .obj [("id", .int u.id), ("name", .str u.name), ("email", .str u.email),
        ("password", .str u.password), ("phoneNo", .str u.phoneNo),
        ("address", .str u.address), ("pincode", .str u.pincode),
        ("role", .str u.role), ("profile_image", .optStr u.profile_image),
        ("createdAt", .nat u.createdAt), ("updatedAt", .nat u.updatedAt)]

/-- A flat row as the JSON object the client receives for it. -/
def Flat.toJson (f : Flat) : JsVal :=
  .obj [("id", .int f.id), ("user_id", .int f.user_id), ("title", .str f.title),
        ("address", .str f.address), ("price", .num f.price),
        ("description", .str f.description),
        ("images", .arr (f.images.map JsVal.str)), ("amenities", f.amenities),
        ("status", .str f.status.toString),
        ("sold_to_user_id", .optInt f.sold_to_user_id),
        ("sold_date", .optNat f.sold_date), ("created_at", .nat f.created_at)]

/-! ## Store operations used by the listing controllers -/

/-- Lookup `flat.findFirst({ where: { id, user_id } })`. -/
def Store.findOwnedFlat (s : Store) (flatId userId : Int) : Option Flat :=
  s.flats.find? (fun f => f.id == flatId && f.user_id == userId)

/-- The data of the update issued by `markFlatSoldController`. -/
def Flat.markSold (f : Flat) (buyer : Option Int) (now : Nat) : Flat :=
  { f with status := .sold, sold_to_user_id := buyer, sold_date := some now }

/-- Update `flat.update({ where: { id }, data })` for the sale: the row with
the given primary key is rewritten; `none` when there is no such row (the
store call then throws). -/
def Store.updateFlatSold (s : Store) (flatId : Int) (buyer : Option Int) (now : Nat) :
    Option (Flat × Store) :=
  match s.flats.find? (fun f => f.id == flatId) with
  | none => none
  | some f =>
    let rows := s.flats.map (fun g => if g.id = flatId then g.markSold buyer now else g)
    some (f.markSold buyer now, { s with flats := rows })

/-- The store after the sale update of listing `flatId`. -/
def Store.soldRows (s : Store) (flatId : Int) (buyer : Option Int) (now : Nat) : Store :=
  { s with flats := s.flats.map (fun g => if g.id = flatId then g.markSold buyer now else g) }

/-- The expression `sold_to_user_id || null`: an absent id and the falsy id `0` give `null`. -/
def orNull : Option Int → Option Int
  | some 0 => none
  | v => v

/-! ## markFlatSoldController -/

/-- Embedding of `markFlatSoldController` (flatController.js, lines 181-215).
`userId` is `req.user.id`, `flatId` is `Number(req.params.id)` for a numeric
route id, `sold_to_user_id` the body field, `now` the value of `new Date()`. -/
def markFlatSoldController (s : Store) (userId flatId : Int)
    (sold_to_user_id : Option Int) (now : Nat) : Response × Store :=
  match s.findOwnedFlat flatId userId with
  | none =>
    (⟨404, .obj [("message", .str "Flat not found or you are not owner")]⟩, s)
  | some flat =>
    if flat.status = .sold then
      (⟨400, .obj [("message", .str "Flat is already sold")]⟩, s)
    else
      match s.updateFlatSold flatId (orNull sold_to_user_id) now with
      | some (updatedFlat, s') =>
        (⟨200, .obj [("message", .str "Flat marked as sold successfully"),
                     ("flat", updatedFlat.toJson)]⟩, s')
      | none => (⟨500, .obj [("message", .str "Something went wrong")]⟩, s)

/-! ## Environment -/

/-- The payload `{ id, role }` that `LoginController` signs into a token. -/
structure Claim where
  id : Int
  role : String
  deriving DecidableEq

/-- The libraries and the process configuration the controllers rely on.
`hashSync` takes the randomness of the salt as its second argument,
`jwtSign` and `jwtVerify` the current time; `jwtVerify` and `jsonParse` give
the message of the error they throw; `flatCreateError` is the error, if any,
with which the persistence layer refuses a new flat row (its schema is not
among the sources); `defaultRole` is the role the user table gives a new row. -/
structure Env where
  ADMIN_EMAIL : Option String
  ADMIN_PASSWORD : Option String
  NODE_ENV : Option String
  hashSync : String → Nat → String
  compareSync : String → String → Bool
  jwtSign : Claim → Nat → String
  jwtVerify : String → Nat → Except String Claim
  Number : String → JsNum
  jsonParse : String → Except String JsVal
  base64 : List Nat → String
  defaultRole : String
  flatCreateError : Flat → Option String

/-! ## Uploads -/

/-- A file as multer hands it to a controller (`memoryStorage`). -/
structure RawFile where
  originalname : String
  mimetype : String
  size : Nat
  buffer : List Nat
  deriving DecidableEq

/-- One call of `cloudinary.uploader.upload`: the data URL and the folder option. -/
structure UploadCall where
  payload : String
  folder : String
  deriving DecidableEq

/-- The data URL built for a file: the mimetype and the base64 text of the buffer. -/
def base64Image (env : Env) (file : RawFile) : String :=
  "data:" ++ file.mimetype ++ ";base64," ++ env.base64 file.buffer

/-- What a controller leaves behind: the response (none while the handler is
still waiting), the store, and the upload calls it issued. -/
structure Outcome where
  response : Option Response
  store : Store
  uploads : List UploadCall

/-! ### Promise.all

The join that `createFlatController` awaits.  Each input promise settles once,
in some completion order; a fulfilment stores its value at the index of the
promise and lowers the count of pending elements, resolving the join with the
array of values when the count reaches zero; a rejection rejects the join.
Only the first settlement of the join counts. -/

/-- State of the join: the value slots, the pending count, the settlement. -/
structure JoinState where
  values : List (Option String)
  remaining : Nat
  settled : Option (Except String (List String))

/-- The join before any input promise has settled. -/
def JoinState.init (n : Nat) : JoinState :=
  { values := List.replicate n none, remaining := n, settled := none }

/-- Promise number `i` settles with `results i`. -/
def JoinState.settle (results : Nat → Except String String) (st : JoinState) (i : Nat) :
    JoinState :=
  match results i with
  | .error e =>
    { st with settled := st.settled.orElse (fun _ => some (.error e)) }
  | .ok v =>
    let values := st.values.set i (some v)
    let remaining := st.remaining - 1
    let resolved : Option (Except String (List String)) :=
      if remaining = 0 then some (.ok (values.filterMap id)) else none
    { values := values, remaining := remaining,
      settled := st.settled.orElse (fun _ => resolved) }

/-- The settlement of `Promise.all` over `n` promises that complete in the given order. -/
def promiseAll (n : Nat) (results : Nat → Except String String) (order : List Nat) :
    Option (Except String (List String)) :=
  (order.foldl (JoinState.settle results) (JoinState.init n)).settled

/-- The URL of upload number `i` when that upload succeeded. -/
def urlOf (upload : Nat → Except String String) (i : Nat) : String :=
  match upload i with
  | .ok url => url
  | .error _ => ""

/-! ## LoginController -/

/-- Body of a login request. -/
structure LoginBody where
  email : Option String
  password : Option String

/-- Lookup `user.findFirst({ where: { email } })`. -/
def Store.findUserByEmail (s : Store) (email : String) : Option User :=
  s.users.find? (fun u => u.email == email)

/-- Embedding of `LoginController` (authController.js, lines 105-141). -/
def LoginController (env : Env) (s : Store) (body : LoginBody) (now : Nat) : Response :=
  if !truthy body.email || !truthy body.password then
    ⟨400, .obj [("message", .str "All fields are required")]⟩
  else
    let email := body.email.getD ""
    let password := body.password.getD ""
    match s.findUserByEmail email with
    | none => ⟨404, .obj [("message", .str "User Not Found")]⟩
    | some user =>
      if some email = env.ADMIN_EMAIL ∧ some password = env.ADMIN_PASSWORD then
        let token := env.jwtSign ⟨user.id, user.role⟩ now
        ⟨200, .obj [("message", .str "Admin LoggedIn Successfully"),
                    ("token", .str token), ("user", user.toJson)]⟩
      else
        let isPasswordValid := env.compareSync password user.password
        if !isPasswordValid then
          ⟨400, .obj [("message", .str "Invalid Password")]⟩
        else
          let token := env.jwtSign ⟨user.id, user.role⟩ now
          ⟨200, .obj [("message", .str "User LoggedIn Successfully"),
                      ("token", .str token), ("user", user.toJson)]⟩

/-! ## RegisterController -/

/-- The errors of the multer step, by `err.code`. -/
inductive MulterError where
  | limitFileSize
  | other
  deriving DecidableEq

/-- The multer instance of authController.js (lines 16-26) on a single file
field: the file filter accepts image mimetypes only, then the 5MB limit applies. -/
def uploadSingle (file : Option RawFile) : Except MulterError (Option RawFile) :=
  match file with
  | none => .ok none
  | some f =>
    if !("image/".data.isPrefixOf f.mimetype.data) then .error .other
    else if f.size > 5 * 1024 * 1024 then .error .limitFileSize
    else .ok (some f)

/-- Body of a registration request. -/
structure RegisterBody where
  name : Option String
  email : Option String
  password : Option String
  phoneNo : Option String
  address : Option String
  pincode : Option String

/-- Insert `user.create({ data })`.  The id, the role and the two timestamps
are filled in by the table. -/
def Store.createUser (env : Env) (s : Store) (name email password phoneNo address pincode : String)
    (profile_image : Option String) (now : Nat) : User × Store :=
  let user : User :=
    { id := s.nextUserId, name := name, email := email, password := password,
      phoneNo := phoneNo, address := address, pincode := pincode,
      role := env.defaultRole, profile_image := profile_image,
      createdAt := now, updatedAt := now }
  (user, { s with users := s.users ++ [user], nextUserId := s.nextUserId + 1 })

/-- The rest pattern `const { [k]: _, ...rest } = value`: the object without key `k`. -/
def JsVal.omit (k : String) : JsVal → JsVal
  | .obj fields => .obj (fields.filter (fun kv => kv.1 != k))
  | v => v

/-- Embedding of `RegisterController` (authController.js, lines 28-103).
`file` is the file part of the request, `upload` the outcome of the storage
call (consulted only when a file is uploaded), `salt` the randomness of the
hash and `now` the time of the insert. -/
def RegisterController (env : Env) (s : Store) (body : RegisterBody) (file : Option RawFile)
    (upload : Except String String) (salt now : Nat) : Outcome :=
  match uploadSingle file with
  | .error err =>
    let errorMessage :=
      if err = .limitFileSize then "File size too large. Maximum 5MB allowed."
      else "Invalid file type. Only images are allowed."
    ⟨some ⟨400, .obj [("message", .str errorMessage)]⟩, s, []⟩
  | .ok reqFile =>
    if !truthy body.name || !truthy body.email || !truthy body.password ||
        !truthy body.phoneNo || !truthy body.address || !truthy body.pincode then
      ⟨some ⟨400, .obj [("message", .str "All fields are required")]⟩, s, []⟩
    else
      let email := body.email.getD ""
      let password := body.password.getD ""
      match s.findUserByEmail email with
      | some _ => ⟨some ⟨400, .obj [("message", .str "User already exists")]⟩, s, []⟩
      | none =>
        let calls : List UploadCall :=
          match reqFile with
          | none => []
          | some f => [⟨base64Image env f, "profile_images"⟩]
        let uploaded : Except String (Option String) :=
          match reqFile with
          | none => .ok none
          | some _ => upload.map some
        match uploaded with
        | .error _ =>
          ⟨some ⟨500, .obj [("message", .str "Profile image upload failed")]⟩, s, calls⟩
        | .ok profileImageUrl =>
          let hashPassword := env.hashSync password salt
          let created := s.createUser env (body.name.getD "") email hashPassword
            (body.phoneNo.getD "") (body.address.getD "") (body.pincode.getD "")
            profileImageUrl now
          let userWithoutPassword := created.1.toJson.omit "password"
          ⟨some ⟨201, .obj [("message", .str "User Registered Successfully"),
                            ("user", userWithoutPassword)]⟩, created.2, calls⟩

/-! ## createFlatController -/

/-- Body of a createFlat request (multipart text fields). -/
structure CreateFlatBody where
  title : Option String
  address : Option String
  price : Option String
  description : Option String
  amenities : Option String

/-- The expression `amenities ? JSON.parse(amenities) : []`. -/
def parseAmenities (env : Env) (amenities : String) : Except String JsVal :=
  if amenities != "" then env.jsonParse amenities else .ok (.arr [])

/-- Insert `flat.create({ data })`: the id and the creation time are filled
in by the table; the error is the one the persistence layer throws. -/
def Store.createFlat (env : Env) (s : Store) (user_id : Int) (title address : String)
    (price : JsNum) (description : String) (images : List String) (amenities : JsVal)
    (now : Nat) : Except String (Flat × Store) :=
  let flat : Flat :=
    { id := s.nextFlatId, user_id := user_id, title := title, address := address,
      price := price, description := description, images := images,
      amenities := amenities, status := .pending, sold_to_user_id := none,
      sold_date := none, created_at := now }
  match env.flatCreateError flat with
  | some e => .error e
  | none => .ok (flat, { s with flats := s.flats ++ [flat], nextFlatId := s.nextFlatId + 1 })

/-- The upload calls of `createFlatController`: one per file, in submission
order, into the folder of the caller. -/
def uploadCalls (env : Env) (userId : Int) (files : List RawFile) : List UploadCall :=
  files.map (fun f => ⟨base64Image env f, "flats/" ++ toString userId⟩)

/-- The second `try` block of `createFlatController` (lines 105-143): the
amenities are parsed, the row is inserted, and any error thrown on the way is
answered as a failed creation. -/
def createFlatRecord (env : Env) (s : Store) (userId : Int) (title address price : String)
    (description amenities : String) (imageUrls : List String) (calls : List UploadCall)
    (now : Nat) : Outcome :=
  let dbFailure (dbError : String) : Outcome :=
    ⟨some ⟨500, .obj [("success", .bool false),
        ("message", .str "Failed to create flat"),
        ("error", .str dbError)]⟩, s, calls⟩
  match parseAmenities env amenities with
  | .error dbError => dbFailure dbError
  | .ok parsed =>
    match s.createFlat env userId title address (env.Number price) description
        imageUrls parsed now with
    | .error dbError => dbFailure dbError
    | .ok (flat, s') =>
      ⟨some ⟨201, .obj [("success", .bool true),
          ("message", .str "Flat Submitted Successfully"),
          ("flat", flat.toJson)]⟩, s', calls⟩

/-- Embedding of `createFlatController` (flatController.js, lines 27-152).
`userId` is `req.user.id`, `files` is `req.files`, `upload i` the outcome of
the storage call for file number `i`, `order` the order in which the upload
promises settle and `now` the time of the insert. -/
def createFlatController (env : Env) (s : Store) (userId : Int) (body : CreateFlatBody)
    (files : Option (List RawFile)) (upload : Nat → Except String String)
    (order : List Nat) (now : Nat) : Outcome :=
  let description := body.description.getD ""
  let amenities := body.amenities.getD "[]"
  if !truthy body.title || !truthy body.address || !truthy body.price then
    ⟨some ⟨400, .obj [("success", .bool false),
        ("message", .str "Title, address and price are required")]⟩, s, []⟩
  else
    let title := body.title.getD ""
    let address := body.address.getD ""
    let price := body.price.getD ""
    match files with
    | none | some [] =>
      ⟨some ⟨400, .obj [("success", .bool false),
          ("message", .str "Please upload at least one image")]⟩, s, []⟩
    | some (file :: rest) =>
      let reqFiles := file :: rest
      let calls := uploadCalls env userId reqFiles
      match promiseAll reqFiles.length upload order with
      | none => ⟨none, s, calls⟩
      | some (.error uploadError) =>
        ⟨some ⟨500, .obj [("success", .bool false),
            ("message", .str "Failed to upload one or more images"),
            ("error", .str uploadError)]⟩, s, calls⟩
      | some (.ok imageUrls) =>
        createFlatRecord env s userId title address price description amenities
          imageUrls calls now

/-! ## authMiddleware -/

/-- The pieces of `text.split(sep)` for a one character separator. -/
def splitOnChar (sep : Char) : List Char → List (List Char)
  | [] => [[]]
  | c :: cs =>
    if c = sep then [] :: splitOnChar sep cs
    else
      match splitOnChar sep cs with
      | [] => [[c]]
      | piece :: pieces => (c :: piece) :: pieces

/-- The expression `req.header("auth-token")?.split(' ')[1] || req.header("auth-token")`:
the second piece of the header when there is a non-empty one, else the header. -/
def extractToken (header : Option String) : Option String :=
  match header with
  | none => none
  | some h =>
    match (splitOnChar ' ' h.data).get? 1 with
    | some (c :: cs) => some (String.mk (c :: cs))
    | _ => some h

/-- The projection `select: { id, name, email, role, profile_image }` attached as `req.user`. -/
structure AuthUser where
  id : Int
  name : String
  email : String
  role : String
  profile_image : Option String
  deriving DecidableEq

/-- Lookup `user.findUnique({ where: { id }, select })` of the request gate. -/
def Store.findAuthUser (s : Store) (id : Int) : Option AuthUser :=
  (s.users.find? (fun u => u.id == id)).map
    (fun u => ⟨u.id, u.name, u.email, u.role, u.profile_image⟩)

/-- How the request gate ends: a response, or `next()` with `req.user` set. -/
inductive GateResult where
  | reject (response : Response)
  | next (user : AuthUser)

/-- The response of the request gate, when it sends one. -/
def GateResult.response? : GateResult → Option Response
  | .reject response => some response
  | .next _ => none

/-- Embedding of `authMiddleware` (authMiddleware.js, lines 6-63). -/
def authMiddleware (env : Env) (s : Store) (header : Option String) (now : Nat) : GateResult :=
  let token := extractToken header
  if !truthy token then
    .reject ⟨401, .obj [("success", .bool false),
      ("message", .str "No authentication token provided")]⟩
  else
    match env.jwtVerify (token.getD "") now with
    | .error jwtError =>
      .reject ⟨401, .obj [("success", .bool false),
        ("message", .str "Invalid or expired token"), ("error", .str jwtError)]⟩
    | .ok decoded =>
      match s.findAuthUser decoded.id with
      | none => .reject ⟨404, .obj [("success", .bool false), ("message", .str "User not found")]⟩
      | some user => .next user

/-- The request gate once the token is known (authMiddleware.js, lines 19-54):
the token is verified and the user of its claim is looked up. -/
def gateWithToken (env : Env) (s : Store) (token : String) (now : Nat) : GateResult :=
  match env.jwtVerify token now with
  | .error jwtError =>
    .reject ⟨401, .obj [("success", .bool false),
      ("message", .str "Invalid or expired token"), ("error", .str jwtError)]⟩
  | .ok decoded =>
    match s.findAuthUser decoded.id with
    | none => .reject ⟨404, .obj [("success", .bool false), ("message", .str "User not found")]⟩
    | some user => .next user

/-! ## updateProfileImageController -/

/-- Update `user.update({ where: { id }, data: { profile_image, updatedAt } })`:
the row with the given primary key is rewritten; `none` when there is no such
row (the store call then throws). -/
def Store.updateProfileImage (s : Store) (userId : Int) (url : String) (now : Nat) :
    Option (User × Store) :=
  match s.users.find? (fun u => u.id == userId) with
  | none => none
  | some u =>
    let rows := s.users.map
      (fun v => if v.id = userId then { v with profile_image := some url, updatedAt := now } else v)
    some ({ u with profile_image := some url, updatedAt := now }, { s with users := rows })

/-- The projection `select` of the profile update: ten fields, the password not among them. -/
def User.profileJson (u : User) : JsVal :=
  .obj [("id", .int u.id), ("name", .str u.name), ("email", .str u.email),
        ("role", .str u.role), ("phoneNo", .str u.phoneNo), ("address", .str u.address),
        ("pincode", .str u.pincode), ("profile_image", .optStr u.profile_image),
        ("createdAt", .nat u.createdAt), ("updatedAt", .nat u.updatedAt)]

/-- Embedding of `updateProfileImageController` (authController.js, lines 198-274).
`userId` is `req.user.id`, `file` the file part of the request, `upload` the
outcome of the storage call, `storeError` the message of the error the store
throws when no row has the id, `now` the value of `new Date()`. -/
def updateProfileImageController (env : Env) (s : Store) (userId : Int)
    (file : Option RawFile) (upload : Except String String) (storeError : String)
    (now : Nat) : Outcome :=
  match uploadSingle file with
  | .error err =>
    let errorMessage :=
      if err = .limitFileSize then "File size too large. Maximum 5MB allowed."
      else "Invalid file type. Only images are allowed."
    ⟨some ⟨400, .obj [("message", .str errorMessage)]⟩, s, []⟩
  | .ok none => ⟨some ⟨400, .obj [("message", .str "No image file provided")]⟩, s, []⟩
  | .ok (some f) =>
    let calls : List UploadCall := [⟨base64Image env f, "profile_images"⟩]
    let failure (message : String) : Outcome :=
      let shown := if message != "" then message else "Failed to upload image. Please try again."
      let detail : List (String × JsVal) :=
        if env.NODE_ENV = some "development" then [("error", .str message)] else []
      ⟨some ⟨500, .obj ([("success", .bool false), ("message", .str shown)] ++ detail)⟩,
        s, calls⟩
    match upload with
    | .error e => failure e
    | .ok url =>
      match s.updateProfileImage userId url now with
      | none => failure storeError
      | some (updatedUser, s') =>
        let userData := updatedUser.profileJson.omit "password"
        ⟨some ⟨200, .obj [("message", .str "Profile image updated successfully"),
            ("user", userData)]⟩, s', calls⟩

/-! ## Listing queries -/

/-- The ordering `orderBy: { created_at: "desc" }`: newest first, rows of equal
creation time in the order of the table. -/
def newestFirst (rows : List Flat) : List Flat :=
  rows.insertionSort (fun a b => b.created_at ≤ a.created_at)

/-- The projection `owner: { select: { id, name, email, address, phoneNo } }`. -/
def Store.ownerJson (s : Store) (userId : Int) : JsVal :=
  match s.users.find? (fun u => u.id == userId) with
  | some u =>
    .obj [("id", .int u.id), ("name", .str u.name), ("email", .str u.email),
          ("address", .str u.address), ("phoneNo", .str u.phoneNo)]
  | none => .null

/-- A flat row with `include: { owner }`. -/
def Flat.toJsonWithOwner (s : Store) (f : Flat) : JsVal :=
  match f.toJson with
  | .obj fields => .obj (fields ++ [("owner", s.ownerJson f.user_id)])
  | v => v

/-- Embedding of `getApprovedFlatsController` (flatController.js, lines 154-168). -/
def getApprovedFlatsController (s : Store) : Response :=
  let flats := newestFirst (s.flats.filter (fun f => f.status = .approved))
  ⟨200, .obj [("message", .str "Fetch all approved flats"),
              ("flats", .arr (flats.map (Flat.toJsonWithOwner s)))]⟩

/-- Embedding of `getUserFlatsController` (flatController.js, lines 170-179). -/
def getUserFlatsController (s : Store) (userId : Int) : Response :=
  let flats := newestFirst (s.flats.filter (fun f => f.user_id == userId))
  ⟨200, .obj [("message", .str "Fetch Flats Successfully"),
              ("flats", .arr (flats.map Flat.toJson))]⟩

/-! ## Operations of the core -/

/-- The place of a status in the lifecycle `pending`, `approved`, `sold`. -/
def Status.rank : Status → Nat
  | .pending => 0
  | .approved => 1
  | .sold => 2

/-- A request to one of the controllers, with the inputs of its embedding. -/
inductive Operation where
  | register (body : RegisterBody) (file : Option RawFile) (upload : Except String String)
      (salt now : Nat)
  | login (body : LoginBody) (now : Nat)
  | createFlat (userId : Int) (body : CreateFlatBody) (files : Option (List RawFile))
      (upload : Nat → Except String String) (order : List Nat) (now : Nat)
  | markSold (userId flatId : Int) (sold_to_user_id : Option Int) (now : Nat)
  | updateProfileImage (userId : Int) (file : Option RawFile)
      (upload : Except String String) (storeError : String) (now : Nat)
  | listApproved
  | listOwned (userId : Int)

/-- The response (if one is sent) and the store after an operation. -/
def Operation.run (env : Env) (s : Store) : Operation → Option Response × Store
  | .register body file upload salt now =>
    ((RegisterController env s body file upload salt now).response,
     (RegisterController env s body file upload salt now).store)
  | .login body now => (some (LoginController env s body now), s)
  | .createFlat userId body files upload order now =>
    ((createFlatController env s userId body files upload order now).response,
     (createFlatController env s userId body files upload order now).store)
  | .markSold userId flatId buyer now =>
    (some (markFlatSoldController s userId flatId buyer now).1,
     (markFlatSoldController s userId flatId buyer now).2)
  | .updateProfileImage userId file upload storeError now =>
    ((updateProfileImageController env s userId file upload storeError now).response,
     (updateProfileImageController env s userId file upload storeError now).store)
  | .listApproved => (some (getApprovedFlatsController s), s)
  | .listOwned userId => (some (getUserFlatsController s userId), s)

/-! ## A concrete environment

Stand-ins for the libraries, used to evaluate the controllers on concrete
requests.  Each is a small table that agrees with the library on the texts
used in this file: the bcrypt digests are those of `s3cret` and `pa55` under
the salt `abcdefghijklmnopqrstuu` with cost 10, and the token is the HS256
token for the payload `{"id":1,"role":"user","iat":1700000000,"exp":1700086400}`
under the secret `demo-secret`. -/

/-- The bcrypt digest of `s3cret`. -/
def digestS3cret : String := "$2b$10$abcdefghijklmnopqrstuu3KWNuWLhBnmgYfnzONPueahDuedC/lu"

/-- The bcrypt digest of `pa55`. -/
def digestPa55 : String := "$2b$10$abcdefghijklmnopqrstuuJ7Osnuc0e.IHBvVpwNwhO9ejPvugvtO"

/-- Stand-in for `hashSync(password, 10)`. -/
def demoHashSync (password : String) (_salt : Nat) : String :=
  if password = "s3cret" then digestS3cret
  else if password = "pa55" then digestPa55
  else "$2b$10$unlisted"

/-- Stand-in for `compareSync`: true on the two listed pairs only. -/
def demoCompareSync (password hash : String) : Bool :=
  (password == "s3cret" && hash == digestS3cret) || (password == "pa55" && hash == digestPa55)

/-- The header piece of an HS256 token. -/
def tokenHeader : String := "eyJhbGciOiJIUzI1NiIsInR5cCI6IkpXVCJ9"

/-- The payload piece for user 1 with role `user`, issued at 1700000000 for one day. -/
def tokenPayload : String :=
  "eyJpZCI6MSwicm9sZSI6InVzZXIiLCJpYXQiOjE3MDAwMDAwMDAsImV4cCI6MTcwMDA4NjQwMH0"

/-- The signature of header and payload under the secret. -/
def tokenSignature : String := "32GAv1w052I5w6RXLx0WqJBCIoGnRUQQQGjI1xzixYw"

/-- The token signed for user 1. -/
def validToken : String := tokenHeader ++ "." ++ tokenPayload ++ "." ++ tokenSignature

/-- The same header and payload with a signature that is not theirs. -/
def forgedToken : String := tokenHeader ++ "." ++ tokenPayload ++ ".forged"

/-- Stand-in for `jwt.verify`: a token must have three pieces, a decodable
header, the signature of its header and payload, and an expiry (in seconds)
after the current time (in milliseconds). -/
def demoVerify (token : String) (now : Nat) : Except String Claim :=
  match splitOnChar '.' token.data with
  | [header, payload, signature] =>
    if header ≠ tokenHeader.data then .error "invalid token"
    else if payload ≠ tokenPayload.data ∨ signature ≠ tokenSignature.data then
      .error "invalid signature"
    else if 1700086400 ≤ now / 1000 then .error "jwt expired"
    else .ok ⟨1, "user"⟩
  | _ => .error "jwt malformed"

/-- Stand-in for `jwt.sign`: the listed token for user 1 at its issue time. -/
def demoSign (claim : Claim) (now : Nat) : String :=
  if claim = ⟨1, "user"⟩ ∧ now / 1000 = 1700000000 then validToken
  else tokenHeader ++ ".e30.unlisted"

/-- Stand-in for `Number` on text: decimal digits only (the empty text is 0). -/
def demoNumber (text : String) : JsNum :=
  if text.data.all Char.isDigit then
    .fin (text.data.foldl (fun acc c => 10 * acc + (c.toNat - 48)) 0 : Nat)
  else .nan

/-- Stand-in for `JSON.parse`: knows the empty array and one array of a single text. -/
def demoJsonParse (text : String) : Except String JsVal :=
  if text = "[]" then .ok (.arr [])
  else if text = "[\"wifi\"]" then .ok (.arr [.str "wifi"])
  else .error "Unexpected token in JSON"

/-- An environment with a configured administrator pair and a store that
accepts every flat row. -/
def demoEnv : Env :=
  { ADMIN_EMAIL := some "admin@flats.test"
    ADMIN_PASSWORD := some "break-glass"
    NODE_ENV := none
    hashSync := demoHashSync
    compareSync := demoCompareSync
    jwtSign := demoSign
    jwtVerify := demoVerify
    Number := demoNumber
    jsonParse := demoJsonParse
    base64 := fun _ => "AAAA"
    defaultRole := "user"
    flatCreateError := fun _ => none }

/-- The same environment with a store that refuses a flat row whose price is not a number. -/
def strictEnv : Env :=
  { demoEnv with
    flatCreateError := fun flat =>
      if flat.price = .nan then some "Argument price is not a valid number" else none }

/-! ## Sample data -/

/-- A pending listing owned by user 1. -/
def sampleFlat : Flat :=
  { id := 7, user_id := 1, title := "2BHK", address := "12 Lake Road", price := .fin 9000,
    description := "", images := ["https://img/a.jpg"], amenities := .arr [],
    status := .pending, sold_to_user_id := none, sold_date := none, created_at := 100 }

/-- A store holding `sampleFlat` only. -/
def sampleFlatStore : Store :=
  { users := [], flats := [sampleFlat], nextUserId := 3, nextFlatId := 8 }

/-- A store whose only listing is already sold. -/
def soldFlatStore : Store :=
  { users := [], flats := [sampleFlat.markSold (some 4) 150], nextUserId := 3, nextFlatId := 8 }

/-- A small JPEG file. -/
def sampleFile (name : String) : RawFile :=
  { originalname := name, mimetype := "image/jpeg", size := 2048, buffer := [255, 216, 255] }

/-- Three files, in submission order. -/
def sampleFiles : List RawFile := [sampleFile "a.jpg", sampleFile "b.jpg", sampleFile "c.jpg"]

/-- A createFlat body with the required fields only. -/
def sampleBody : CreateFlatBody :=
  { title := some "2BHK", address := some "12 Lake Road", price := some "9000",
    description := none, amenities := none }

/-- The URL the storage service returns for file number `i`. -/
def sampleUrl (i : Nat) : String :=
  if i = 0 then "https://cdn/a" else if i = 1 then "https://cdn/b" else "https://cdn/c"

/-- Every upload succeeds. -/
def allUploaded (i : Nat) : Except String String := .ok (sampleUrl i)

/-- The upload of the second file fails. -/
def secondFails (i : Nat) : Except String String :=
  if i = 1 then .error "storage timeout" else .ok (sampleUrl i)

/-- A registered user whose stored password is the hash of `s3cret`. -/
def sampleUser : User :=
  { id := 1, name := "Asha", email := "asha@flats.test", password := digestS3cret,
    phoneNo := "5550100", address := "4 Hill Street", pincode := "500001", role := "user",
    profile_image := none, createdAt := 50, updatedAt := 50 }

/-- The administrator account; its stored password is not a hash. -/
def adminUser : User :=
  { id := 2, name := "Root", email := "admin@flats.test", password := "not-a-hash",
    phoneNo := "5550199", address := "1 Main Street", pincode := "500002", role := "admin",
    profile_image := none, createdAt := 60, updatedAt := 60 }

/-- A store holding the two users. -/
def sampleUserStore : Store :=
  { users := [sampleUser, adminUser], flats := [], nextUserId := 3, nextFlatId := 1 }

/-- A createFlat body whose price is not the text of a number. -/
def badPriceBody : CreateFlatBody :=
  { sampleBody with price := some "not-a-number" }

/-- A createFlat body whose amenities text is not JSON. -/
def badAmenitiesBody : CreateFlatBody :=
  { sampleBody with amenities := some "\x7bwifi" }

/-- An approved listing of user 1, newer than `sampleFlat`. -/
def approvedFlat : Flat :=
  { sampleFlat with id := 8, title := "Studio", status := .approved, created_at := 120 }

/-- A store with both users, a pending listing and an approved listing. -/
def sampleMarket : Store :=
  { users := [sampleUser, adminUser], flats := [sampleFlat, approvedFlat],
    nextUserId := 3, nextFlatId := 9 }

/-- A registration body that reuses the email of `sampleUser` and has no name. -/
def namelessBody : RegisterBody :=
  { name := none, email := some "asha@flats.test", password := some "pa55",
    phoneNo := some "5550123", address := some "9 Park Lane", pincode := some "500003" }

/-- A registration body that reuses the email of `sampleUser` with every field filled. -/
def duplicateBody : RegisterBody :=
  { namelessBody with name := some "Asha Again" }

/-! ## Lemmas on the store -/

theorem find_owned_after_update (l : List Flat) (flatId userId : Int)
    (buyer : Option Int) (now : Nat) :
    (l.map (fun g => if g.id = flatId then g.markSold buyer now else g)).find?
        (fun f => f.id == flatId && f.user_id == userId)
      = (l.find? (fun f => f.id == flatId && f.user_id == userId)).map
          (fun g => g.markSold buyer now) := by
  induction l with
  | nil => rfl
  | cons a t ih =>
    rw [List.map_cons, List.find?_cons, List.find?_cons, ih]
    by_cases hid : a.id = flatId
    · by_cases hu : a.user_id = userId
      · simp [hid, hu, Flat.markSold]
      · have hb : (a.user_id == userId) = false := beq_false_of_ne hu
        simp [hid, hb, Flat.markSold]
    · have hb : (a.id == flatId) = false := beq_false_of_ne hid
      simp [hid, hb]

theorem find_by_id_of_find_owned (l : List Flat) (flatId userId : Int) (flat : Flat)
    (h : l.find? (fun f => f.id == flatId && f.user_id == userId) = some flat) :
    ∃ g, l.find? (fun f => f.id == flatId) = some g := by
  have hp := List.find?_some h
  have hm := List.mem_of_find?_eq_some h
  cases hq : l.find? (fun f => f.id == flatId) with
  | some g => exact ⟨g, rfl⟩
  | none =>
    have := List.find?_eq_none.mp hq flat hm
    simp at hp
    simp [hp.1] at this

theorem findOwned_soldRows (s : Store) (flatId userId : Int) (buyer : Option Int) (now : Nat)
    (flat : Flat) (hown : s.findOwnedFlat flatId userId = some flat) :
    (s.soldRows flatId buyer now).findOwnedFlat flatId userId
      = some (flat.markSold buyer now) := by
  unfold Store.findOwnedFlat at hown ⊢
  unfold Store.soldRows
  simp only [find_owned_after_update, hown, Option.map_some']

theorem markSold_of_sold (s : Store) (userId flatId : Int) (b : Option Int) (t : Nat)
    (flat : Flat) (hown : s.findOwnedFlat flatId userId = some flat)
    (hs : flat.status = .sold) :
    markFlatSoldController s userId flatId b t
      = (⟨400, .obj [("message", .str "Flat is already sold")]⟩, s) := by
  unfold markFlatSoldController
  rw [hown]
  simp only [hs, if_true]

theorem markSold_of_unsold (s : Store) (userId flatId : Int) (b : Option Int) (t : Nat)
    (flat : Flat) (hown : s.findOwnedFlat flatId userId = some flat)
    (hs : flat.status ≠ .sold) :
    ∃ body, markFlatSoldController s userId flatId b t
      = (⟨200, body⟩, s.soldRows flatId (orNull b) t) := by
  obtain ⟨g, hg⟩ := find_by_id_of_find_owned s.flats flatId userId flat hown
  unfold markFlatSoldController
  rw [hown]
  simp only [hs, if_false, Store.updateFlatSold, hg]
  exact ⟨_, rfl⟩

/-! ## Lemmas on Promise.all -/

theorem settle_keeps_settled (results : Nat → Except String String) (st : JoinState) (i : Nat)
    (r : Except String (List String)) (h : st.settled = some r) :
    (JoinState.settle results st i).settled = some r := by
  unfold JoinState.settle
  cases results i <;> simp [h, Option.orElse]

theorem foldl_keeps_settled (results : Nat → Except String String) (l : List Nat)
    (st : JoinState) (r : Except String (List String)) (h : st.settled = some r) :
    (l.foldl (JoinState.settle results) st).settled = some r := by
  induction l generalizing st with
  | nil => exact h
  | cons i t ih => exact ih _ (settle_keeps_settled results st i r h)

theorem values_complete (n : Nat) (url : Nat → String) (values : List (Option String))
    (hlen : values.length = n) (hall : ∀ j, j < n → values[j]? = some (some (url j))) :
    values.filterMap id = (List.range n).map url := by
  have hv : values = (List.range n).map (some ∘ url) := by
    apply List.ext_getElem?
    intro j
    by_cases hj : j < n
    · rw [hall j hj, List.getElem?_map, List.getElem?_range hj]
      rfl
    · have h1 : values[j]? = none := List.getElem?_eq_none (by omega)
      have h2 : ((List.range n).map (some ∘ url))[j]? = none :=
        List.getElem?_eq_none (by simp; omega)
      rw [h1, h2]
  rw [hv, List.filterMap_map]
  have hid : (id ∘ (some ∘ url) : Nat → Option String) = some ∘ url := rfl
  rw [hid, List.filterMap_eq_map]

/-- When every pending promise fulfils, the join resolves with the values in
index order, whatever the order of completion. -/
theorem foldl_settle_all_ok (n : Nat) (results : Nat → Except String String)
    (url : Nat → String) (hok : ∀ i, i < n → results i = .ok (url i))
    (l : List Nat) (st : JoinState) (hne : l ≠ [])
    (hnone : st.settled = none) (hrem : st.remaining = l.length)
    (hlen : st.values.length = n) (hnd : l.Nodup) (hlt : ∀ i ∈ l, i < n)
    (hdone : ∀ j, j < n → j ∉ l → st.values[j]? = some (some (url j))) :
    (l.foldl (JoinState.settle results) st).settled
      = some (.ok ((List.range n).map url)) := by
  induction l generalizing st with
  | nil => exact absurd rfl hne
  | cons i t ih =>
    have hi : i < n := hlt i (List.mem_cons_self i t)
    have hit : i ∉ t := (List.nodup_cons.mp hnd).1
    have hvals : ∀ j, j < n → j ∉ t →
        (st.values.set i (some (url i)))[j]? = some (some (url j)) := by
      intro j hj hjt
      by_cases hji : i = j
      · subst hji
        rw [List.getElem?_set_self (by omega)]
      · rw [List.getElem?_set_ne hji]
        exact hdone j hj (by
          intro hmem
          rcases List.mem_cons.mp hmem with h | h
          · exact hji h.symm
          · exact hjt h)
    rw [List.foldl_cons]
    by_cases ht : t = []
    · subst ht
      have hone : st.remaining - 1 = 0 := by simp [hrem]
      simp only [List.foldl_nil, JoinState.settle, hok i hi, hnone, hone, if_true,
        Option.orElse]
      rw [values_complete n url _ (by rw [List.length_set]; exact hlen)
        (fun j hj => hvals j hj (List.not_mem_nil j))]
    · have hpos : st.remaining - 1 ≠ 0 := by
        have : t.length ≠ 0 := fun h => ht (List.length_eq_zero.mp h)
        simp only [hrem, List.length_cons]
        omega
      apply ih _ ht
      · simp only [JoinState.settle, hok i hi, hnone, hpos, if_false, Option.orElse]
      · simp only [JoinState.settle, hok i hi, hrem, List.length_cons]
        omega
      · simp only [JoinState.settle, hok i hi, List.length_set]
        exact hlen
      · exact (List.nodup_cons.mp hnd).2
      · intro k hk
        exact hlt k (List.mem_cons_of_mem i hk)
      · intro j hj hjt
        simp only [JoinState.settle, hok i hi]
        exact hvals j hj hjt

/-- When some pending promise rejects, the join rejects with the error of an input promise. -/
theorem foldl_settle_some_error (results : Nat → Except String String)
    (l : List Nat) (st : JoinState)
    (hnone : st.settled = none) (hrem : st.remaining = l.length)
    (hbad : ∃ i ∈ l, ∃ e, results i = .error e) :
    ∃ i ∈ l, ∃ e, results i = .error e ∧
      (l.foldl (JoinState.settle results) st).settled = some (.error e) := by
  induction l generalizing st with
  | nil =>
    obtain ⟨i, hi, _⟩ := hbad
    exact absurd hi (List.not_mem_nil i)
  | cons i t ih =>
    rw [List.foldl_cons]
    cases hr : results i with
    | error e =>
      refine ⟨i, List.mem_cons_self i t, e, hr, ?_⟩
      apply foldl_keeps_settled
      simp [JoinState.settle, hr, hnone, Option.orElse]
    | ok v =>
      have hbad' : ∃ j ∈ t, ∃ e, results j = .error e := by
        obtain ⟨j, hj, e, he⟩ := hbad
        rcases List.mem_cons.mp hj with h | h
        · subst h
          rw [hr] at he
          cases he
        · exact ⟨j, h, e, he⟩
      have htlen : t.length ≠ 0 := by
        obtain ⟨j, hj, _⟩ := hbad'
        intro h
        rw [List.length_eq_zero.mp h] at hj
        exact absurd hj (List.not_mem_nil j)
      have hpos : st.remaining - 1 ≠ 0 := by
        simp only [hrem, List.length_cons]
        omega
      obtain ⟨j, hj, e, he, hres⟩ := ih (JoinState.settle results st i)
        (by simp only [JoinState.settle, hr, hnone, hpos, if_false, Option.orElse])
        (by simp only [JoinState.settle, hr, hrem, List.length_cons]; omega) hbad'
      exact ⟨j, List.mem_cons_of_mem i hj, e, he, hres⟩

/-- All uploads succeed: `Promise.all` resolves with the URLs in submission order. -/
theorem promiseAll_all_ok (n : Nat) (results : Nat → Except String String)
    (url : Nat → String) (order : List Nat) (hn : 0 < n)
    (hperm : order.Perm (List.range n)) (hok : ∀ i, i < n → results i = .ok (url i)) :
    promiseAll n results order = some (.ok ((List.range n).map url)) := by
  unfold promiseAll
  have hlen : order.length = n := by rw [hperm.length_eq, List.length_range]
  apply foldl_settle_all_ok n results url hok
  · intro h
    rw [h] at hlen
    simp at hlen
    omega
  · rfl
  · simp [JoinState.init, hlen]
  · simp [JoinState.init]
  · exact hperm.nodup_iff.mpr (List.nodup_range n)
  · intro i hi
    exact List.mem_range.mp (hperm.mem_iff.mp hi)
  · intro j hj hjn
    exact absurd (hperm.mem_iff.mpr (List.mem_range.mpr hj)) hjn

/-- Some upload fails: `Promise.all` rejects with the error of one of the uploads. -/
theorem promiseAll_some_error (n : Nat) (results : Nat → Except String String)
    (order : List Nat) (hperm : order.Perm (List.range n))
    (hbad : ∃ i, i < n ∧ ∃ e, results i = .error e) :
    ∃ i, i < n ∧ ∃ e, results i = .error e ∧ promiseAll n results order = some (.error e) := by
  unfold promiseAll
  have hlen : order.length = n := by rw [hperm.length_eq, List.length_range]
  obtain ⟨i, hi, e, he⟩ := hbad
  obtain ⟨j, hj, e', he', hres⟩ := foldl_settle_some_error results order (JoinState.init n)
    rfl (by simp [JoinState.init, hlen])
    ⟨i, hperm.mem_iff.mpr (List.mem_range.mpr hi), e, he⟩
  exact ⟨j, List.mem_range.mp (hperm.mem_iff.mp hj), e', he', hres⟩

/-- Once every upload has completed, `Promise.all` has settled: resolved with
all URLs in submission order, or rejected with the error of an upload. -/
theorem promiseAll_settles (n : Nat) (results : Nat → Except String String)
    (order : List Nat) (hn : 0 < n) (hperm : order.Perm (List.range n)) :
    ((∀ i, i < n → results i = .ok (urlOf results i)) ∧
      promiseAll n results order = some (.ok ((List.range n).map (urlOf results)))) ∨
    (∃ i, i < n ∧ ∃ e, results i = .error e ∧
      promiseAll n results order = some (.error e)) := by
  by_cases hbad : ∃ i, i < n ∧ ∃ e, results i = .error e
  · exact Or.inr (promiseAll_some_error n results order hperm hbad)
  · have hok : ∀ i, i < n → results i = .ok (urlOf results i) := by
      intro i hi
      cases hr : results i with
      | error e => exact absurd ⟨i, hi, e, hr⟩ hbad
      | ok v => simp [urlOf, hr]
    exact Or.inl ⟨hok, promiseAll_all_ok n results (urlOf results) order hn hperm hok⟩

/-! ## Lemmas on createFlatController -/

theorem createFlat_of_resolved (env : Env) (s : Store) (userId : Int) (body : CreateFlatBody)
    (files : List RawFile) (upload : Nat → Except String String) (order : List Nat) (now : Nat)
    (urls : List String)
    (htitle : truthy body.title = true) (haddress : truthy body.address = true)
    (hprice : truthy body.price = true) (hfiles : files ≠ [])
    (hall : promiseAll files.length upload order = some (.ok urls)) :
    createFlatController env s userId body (some files) upload order now
      = createFlatRecord env s userId (body.title.getD "") (body.address.getD "")
          (body.price.getD "") (body.description.getD "") (body.amenities.getD "[]")
          urls (uploadCalls env userId files) now := by
  cases files with
  | nil => exact absurd rfl hfiles
  | cons f r =>
    simp only [createFlatController, htitle, haddress, hprice, Bool.not_true, Bool.or_self,
      Bool.false_eq_true, if_false, hall, uploadCalls]

theorem createFlat_of_rejected (env : Env) (s : Store) (userId : Int) (body : CreateFlatBody)
    (files : List RawFile) (upload : Nat → Except String String) (order : List Nat) (now : Nat)
    (e : String)
    (htitle : truthy body.title = true) (haddress : truthy body.address = true)
    (hprice : truthy body.price = true) (hfiles : files ≠ [])
    (hall : promiseAll files.length upload order = some (.error e)) :
    createFlatController env s userId body (some files) upload order now
      = ⟨some ⟨500, .obj [("success", .bool false),
            ("message", .str "Failed to upload one or more images"),
            ("error", .str e)]⟩, s, uploadCalls env userId files⟩ := by
  cases files with
  | nil => exact absurd rfl hfiles
  | cons f r =>
    simp only [createFlatController, htitle, haddress, hprice, Bool.not_true, Bool.or_self,
      Bool.false_eq_true, if_false, hall, uploadCalls]

/-- The inner block either leaves the store alone and answers 500, or appends
one pending row, accepted by the store and carrying the given image list and
the coerced price, and answers 201. -/
theorem createFlatRecord_cases (env : Env) (s : Store) (userId : Int)
    (title address price description amenities : String) (imageUrls : List String)
    (calls : List UploadCall) (now : Nat) :
    ((createFlatRecord env s userId title address price description amenities
          imageUrls calls now).store = s ∧
      ∃ body, (createFlatRecord env s userId title address price description amenities
          imageUrls calls now).response = some ⟨500, body⟩) ∨
    (∃ flat, (createFlatRecord env s userId title address price description amenities
          imageUrls calls now).store
          = { s with flats := s.flats ++ [flat], nextFlatId := s.nextFlatId + 1 } ∧
      flat.images = imageUrls ∧ flat.status = .pending ∧
      flat.price = env.Number price ∧ env.flatCreateError flat = none ∧
      (createFlatRecord env s userId title address price description amenities
          imageUrls calls now).response
          = some ⟨201, .obj [("success", .bool true),
              ("message", .str "Flat Submitted Successfully"), ("flat", flat.toJson)]⟩) := by
  unfold createFlatRecord
  cases hp : parseAmenities env amenities with
  | error e => exact Or.inl ⟨rfl, _, rfl⟩
  | ok parsed =>
    simp only [Store.createFlat]
    cases hc : env.flatCreateError
        { id := s.nextFlatId, user_id := userId, title := title, address := address,
          price := env.Number price, description := description, images := imageUrls,
          amenities := parsed, status := .pending, sold_to_user_id := none,
          sold_date := none, created_at := now } with
    | some e => exact Or.inl ⟨rfl, _, rfl⟩
    | none => exact Or.inr ⟨_, rfl, rfl, rfl, rfl, hc, rfl⟩

theorem createFlatRecord_uploads (env : Env) (s : Store) (userId : Int)
    (title address price description amenities : String) (imageUrls : List String)
    (calls : List UploadCall) (now : Nat) :
    (createFlatRecord env s userId title address price description amenities
          imageUrls calls now).uploads = calls := by
  unfold createFlatRecord
  cases parseAmenities env amenities with
  | error e => rfl
  | ok parsed =>
    simp only []
    cases s.createFlat env userId title address (env.Number price) description
        imageUrls parsed now with
    | error e => rfl
    | ok r => rfl

/-- The inner block answers 500 with the parser's message when the amenities do not parse. -/
theorem createFlatRecord_parse_error (env : Env) (s : Store) (userId : Int)
    (title address price description amenities : String) (imageUrls : List String)
    (calls : List UploadCall) (now : Nat) (msg : String)
    (hparse : parseAmenities env amenities = .error msg) :
    createFlatRecord env s userId title address price description amenities
        imageUrls calls now
      = ⟨some ⟨500, .obj [("success", .bool false),
            ("message", .str "Failed to create flat"), ("error", .str msg)]⟩, s, calls⟩ := by
  unfold createFlatRecord
  simp only [hparse]

/-- The inner block succeeds when the amenities parse and the store accepts the row. -/
theorem createFlatRecord_ok (env : Env) (s : Store) (userId : Int)
    (title address price description amenities : String) (imageUrls : List String)
    (calls : List UploadCall) (now : Nat) (parsed : JsVal)
    (hparse : parseAmenities env amenities = .ok parsed)
    (haccept : ∀ f, env.flatCreateError f = none) :
    ∃ flat, (createFlatRecord env s userId title address price description amenities
          imageUrls calls now).store
          = { s with flats := s.flats ++ [flat], nextFlatId := s.nextFlatId + 1 } ∧
      flat.images = imageUrls ∧ flat.amenities = parsed ∧ flat.status = .pending ∧
      (createFlatRecord env s userId title address price description amenities
          imageUrls calls now).response
          = some ⟨201, .obj [("success", .bool true),
              ("message", .str "Flat Submitted Successfully"), ("flat", flat.toJson)]⟩ := by
  unfold createFlatRecord
  simp only [hparse, Store.createFlat, haccept]
  exact ⟨_, rfl, rfl, rfl, rfl, rfl⟩

/-! ## createFlat: images -/

/-- C1: a createFlat request with non-empty title, address and price and k
files (1 ≤ k ≤ 5), whose uploads settle in any order (`order` is a permutation
of the file indices).
If every upload succeeds, with `url i` the URL returned for file `i`, then the
request either writes nothing, or appends exactly one listing, whose image list
has k entries with entry `i` equal to `url i`; and it does write that listing,
answering 201, whenever the amenities text parses and the store accepts the row.
If some upload fails, the request answers 500 with the error of a failed
upload and the store is unchanged. -/
theorem createFlat_images_in_order (env : Env) (s : Store) (userId : Int)
    (body : CreateFlatBody) (files : List RawFile) (upload : Nat → Except String String)
    (order : List Nat) (now : Nat)
    (htitle : truthy body.title = true) (haddress : truthy body.address = true)
    (hprice : truthy body.price = true)
    (hk1 : 1 ≤ files.length) (hk5 : files.length ≤ 5)
    (hperm : order.Perm (List.range files.length)) :
    (∀ url : Nat → String, (∀ i, i < files.length → upload i = .ok (url i)) →
      (((createFlatController env s userId body (some files) upload order now).store = s ∧
          ∃ b, (createFlatController env s userId body (some files) upload order now).response
            = some ⟨500, b⟩) ∨
        ∃ flat,
          (createFlatController env s userId body (some files) upload order now).store
            = { s with flats := s.flats ++ [flat], nextFlatId := s.nextFlatId + 1 } ∧
          flat.images.length = files.length ∧
          ∀ i, i < files.length → flat.images[i]? = some (url i)) ∧
      (∀ parsed, parseAmenities env (body.amenities.getD "[]") = .ok parsed →
        (∀ f, env.flatCreateError f = none) →
        ∃ flat,
          (createFlatController env s userId body (some files) upload order now).store
            = { s with flats := s.flats ++ [flat], nextFlatId := s.nextFlatId + 1 } ∧
          (createFlatController env s userId body (some files) upload order now).response
            = some ⟨201, .obj [("success", .bool true),
                ("message", .str "Flat Submitted Successfully"), ("flat", flat.toJson)]⟩ ∧
          flat.images.length = files.length ∧
          ∀ i, i < files.length → flat.images[i]? = some (url i))) ∧
    ((∃ i, i < files.length ∧ ∃ e, upload i = .error e) →
      (createFlatController env s userId body (some files) upload order now).store = s ∧
      ∃ i, i < files.length ∧ ∃ e, upload i = .error e ∧
        (createFlatController env s userId body (some files) upload order now).response
          = some ⟨500, .obj [("success", .bool false),
              ("message", .str "Failed to upload one or more images"),
              ("error", .str e)]⟩) := by
  have _ := hk5
  have hfiles : files ≠ [] := by
    intro h
    rw [h] at hk1
    simp at hk1
  have himg : ∀ url : Nat → String, ((List.range files.length).map url).length = files.length ∧
      ∀ i, i < files.length → ((List.range files.length).map url)[i]? = some (url i) := by
    intro url
    refine ⟨by simp, ?_⟩
    intro i hi
    rw [List.getElem?_map, List.getElem?_range hi]
    rfl
  refine ⟨?_, ?_⟩
  · intro url hok
    have hall := promiseAll_all_ok files.length upload url order hk1 hperm hok
    rw [createFlat_of_resolved env s userId body files upload order now _
      htitle haddress hprice hfiles hall]
    refine ⟨?_, ?_⟩
    · rcases createFlatRecord_cases env s userId (body.title.getD "") (body.address.getD "")
          (body.price.getD "") (body.description.getD "") (body.amenities.getD "[]")
          ((List.range files.length).map url) (uploadCalls env userId files) now with h | h
      · exact Or.inl h
      · obtain ⟨flat, hstore, hi, _, _⟩ := h
        refine Or.inr ⟨flat, hstore, ?_, ?_⟩
        · rw [hi]
          exact (himg url).1
        · rw [hi]
          exact (himg url).2
    · intro parsed hparse haccept
      obtain ⟨flat, hstore, hi, _, _, hresp⟩ :=
        createFlatRecord_ok env s userId (body.title.getD "") (body.address.getD "")
          (body.price.getD "") (body.description.getD "") (body.amenities.getD "[]")
          ((List.range files.length).map url) (uploadCalls env userId files) now parsed
          hparse haccept
      refine ⟨flat, hstore, hresp, ?_, ?_⟩
      · rw [hi]
        exact (himg url).1
      · rw [hi]
        exact (himg url).2
  · intro hbad
    obtain ⟨i, hi, e, he, hall⟩ := promiseAll_some_error files.length upload order hperm hbad
    rw [createFlat_of_rejected env s userId body files upload order now e
      htitle haddress hprice hfiles hall]
    exact ⟨rfl, i, hi, e, he, rfl⟩

/-- Witness for C1: three files whose uploads complete in the order 2, 0, 1.
When all succeed the listing is written with the three URLs in submission
order; when the second upload fails the store is unchanged. -/
theorem createFlat_images_in_order_witness :
    (∃ flat,
      (createFlatController demoEnv sampleFlatStore 1 sampleBody (some sampleFiles)
          allUploaded [2, 0, 1] 500).store
        = { sampleFlatStore with flats := sampleFlatStore.flats ++ [flat],
                                 nextFlatId := sampleFlatStore.nextFlatId + 1 } ∧
      (createFlatController demoEnv sampleFlatStore 1 sampleBody (some sampleFiles)
          allUploaded [2, 0, 1] 500).response
        = some ⟨201, .obj [("success", .bool true),
            ("message", .str "Flat Submitted Successfully"), ("flat", flat.toJson)]⟩ ∧
      flat.images.length = sampleFiles.length ∧
      ∀ i, i < sampleFiles.length → flat.images[i]? = some (sampleUrl i)) ∧
    (createFlatController demoEnv sampleFlatStore 1 sampleBody (some sampleFiles)
        secondFails [2, 0, 1] 500).store = sampleFlatStore :=
  ⟨((createFlat_images_in_order demoEnv sampleFlatStore 1 sampleBody sampleFiles allUploaded
      [2, 0, 1] 500 rfl rfl rfl (by decide) (by decide) (by decide)).1 sampleUrl
      (fun _ _ => rfl)).2 (.arr []) rfl (fun _ => rfl),
   ((createFlat_images_in_order demoEnv sampleFlatStore 1 sampleBody sampleFiles secondFails
      [2, 0, 1] 500 rfl rfl rfl (by decide) (by decide) (by decide)).2
      ⟨1, by decide, "storage timeout", rfl⟩).1⟩

/-! ## createFlat: price, amenities, files -/

/-- C7 (as stated, on the code): the request with `price = "not-a-number"`,
a title, an address and three images is not answered 400. Its uploads are
issued; where the store accepts the row the answer is 201 and a listing with
price `NaN` is persisted, where the store refuses the row the answer is 500. -/
theorem createFlat_bad_price_not_400 :
    demoNumber "not-a-number" = .nan ∧
    (createFlatController demoEnv sampleFlatStore 1 badPriceBody (some sampleFiles)
        allUploaded [0, 1, 2] 500).response.map Response.status = some 201 ∧
    ((createFlatController demoEnv sampleFlatStore 1 badPriceBody (some sampleFiles)
        allUploaded [0, 1, 2] 500).store.flats.map Flat.price) = [.fin 9000, .nan] ∧
    (createFlatController strictEnv sampleFlatStore 1 badPriceBody (some sampleFiles)
        allUploaded [0, 1, 2] 500).response.map Response.status = some 500 ∧
    (createFlatController strictEnv sampleFlatStore 1 badPriceBody (some sampleFiles)
        allUploaded [0, 1, 2] 500).uploads.length = 3 :=
  ⟨rfl, rfl, rfl, rfl, rfl⟩

/-- C7 (amended): a createFlat request with a title, an address, at least one
image and a non-empty price text that `Number` turns into `NaN` passes field
validation: one upload per file is issued, and the answer is either 500 with
the store unchanged, or 201 with one listing appended whose price is `NaN`;
it is never 400. When the store refuses rows with a `NaN` price the answer is
500 and the store is unchanged. -/
theorem createFlat_non_numeric_price (env : Env) (s : Store) (userId : Int)
    (body : CreateFlatBody) (files : List RawFile) (upload : Nat → Except String String)
    (order : List Nat) (now : Nat) (price : String)
    (htitle : truthy body.title = true) (haddress : truthy body.address = true)
    (hbody : body.price = some price) (hprice : price ≠ "")
    (hnan : env.Number price = .nan)
    (hfiles : files ≠ []) (hperm : order.Perm (List.range files.length)) :
    (createFlatController env s userId body (some files) upload order now).uploads
      = uploadCalls env userId files ∧
    (((createFlatController env s userId body (some files) upload order now).store = s ∧
        ∃ b, (createFlatController env s userId body (some files) upload order now).response
          = some ⟨500, b⟩) ∨
      ∃ flat,
        (createFlatController env s userId body (some files) upload order now).store
          = { s with flats := s.flats ++ [flat], nextFlatId := s.nextFlatId + 1 } ∧
        flat.price = .nan ∧
        (createFlatController env s userId body (some files) upload order now).response
          = some ⟨201, .obj [("success", .bool true),
              ("message", .str "Flat Submitted Successfully"), ("flat", flat.toJson)]⟩) ∧
    ((∀ f : Flat, f.price = .nan → env.flatCreateError f ≠ none) →
      (createFlatController env s userId body (some files) upload order now).store = s ∧
      ∃ b, (createFlatController env s userId body (some files) upload order now).response
        = some ⟨500, b⟩) := by
  have hp : truthy body.price = true := by simp [hbody, truthy, hprice]
  have hn : 0 < files.length := List.length_pos.mpr hfiles
  rcases promiseAll_settles files.length upload order hn hperm with ⟨_, hall⟩ | ⟨i, _, e, _, hall⟩
  · rw [createFlat_of_resolved env s userId body files upload order now _
      htitle haddress hp hfiles hall]
    have hpr : body.price.getD "" = price := by simp [hbody]
    rw [hpr]
    refine ⟨createFlatRecord_uploads _ _ _ _ _ _ _ _ _ _ _, ?_, ?_⟩
    · rcases createFlatRecord_cases env s userId (body.title.getD "") (body.address.getD "")
          price (body.description.getD "") (body.amenities.getD "[]")
          ((List.range files.length).map (urlOf upload)) (uploadCalls env userId files) now
        with h | ⟨flat, hstore, _, _, hprc, _, hresp⟩
      · exact Or.inl h
      · exact Or.inr ⟨flat, hstore, hprc.trans hnan, hresp⟩
    · intro hrej
      rcases createFlatRecord_cases env s userId (body.title.getD "") (body.address.getD "")
          price (body.description.getD "") (body.amenities.getD "[]")
          ((List.range files.length).map (urlOf upload)) (uploadCalls env userId files) now
        with h | ⟨flat, _, _, _, hprc, hacc, _⟩
      · exact h
      · exact absurd hacc (hrej flat (hprc.trans hnan))
  · rw [createFlat_of_rejected env s userId body files upload order now e
      htitle haddress hp hfiles hall]
    exact ⟨rfl, Or.inl ⟨rfl, _, rfl⟩, fun _ => ⟨rfl, _, rfl⟩⟩

/-- Witness for C7 (amended): the request priced `not-a-number` against a
store that refuses `NaN` prices is answered 500 and nothing is persisted. -/
theorem createFlat_non_numeric_price_witness :
    (createFlatController strictEnv sampleFlatStore 1 badPriceBody (some sampleFiles)
        allUploaded [0, 1, 2] 500).store = sampleFlatStore ∧
    ∃ b, (createFlatController strictEnv sampleFlatStore 1 badPriceBody (some sampleFiles)
        allUploaded [0, 1, 2] 500).response = some ⟨500, b⟩ :=
  (createFlat_non_numeric_price strictEnv sampleFlatStore 1 badPriceBody sampleFiles
    allUploaded [0, 1, 2] 500 "not-a-number" rfl rfl rfl (by decide) rfl (by decide)
    (by decide)).2.2 (by
      intro f hf
      simp [strictEnv, hf])

/-- C8 (as stated, on the code): with amenities text that is not JSON, a
request that passes validation and whose uploads all succeed is answered 500
"Failed to create flat" and nothing is persisted. -/
theorem createFlat_bad_amenities_fails :
    (createFlatController demoEnv sampleFlatStore 1 badAmenitiesBody (some sampleFiles)
        allUploaded [0, 1, 2] 500).response.map Response.status = some 500 ∧
    ((createFlatController demoEnv sampleFlatStore 1 badAmenitiesBody (some sampleFiles)
        allUploaded [0, 1, 2] 500).response.bind (fun r => r.body.field "message"))
      = some (.str "Failed to create flat") ∧
    (createFlatController demoEnv sampleFlatStore 1 badAmenitiesBody (some sampleFiles)
        allUploaded [0, 1, 2] 500).store = sampleFlatStore :=
  ⟨rfl, rfl, rfl⟩

/-- C8 (amended): a createFlat request that passes field validation and whose
uploads all succeed. When the amenities field is omitted or empty, then (with
`JSON.parse("[]")` the empty array and a store that accepts the row) the
answer is 201 and the listing is persisted with the empty amenities array.
When the amenities field is non-empty text that `JSON.parse` rejects, the
answer is 500 "Failed to create flat" with the parser's message and nothing
is persisted. -/
theorem createFlat_amenities (env : Env) (s : Store) (userId : Int)
    (body : CreateFlatBody) (files : List RawFile) (upload : Nat → Except String String)
    (order : List Nat) (now : Nat) (url : Nat → String)
    (htitle : truthy body.title = true) (haddress : truthy body.address = true)
    (hprice : truthy body.price = true)
    (hfiles : files ≠ []) (hperm : order.Perm (List.range files.length))
    (hok : ∀ i, i < files.length → upload i = .ok (url i)) :
    ((body.amenities = none ∨ body.amenities = some "") →
      env.jsonParse "[]" = .ok (.arr []) → (∀ f, env.flatCreateError f = none) →
      ∃ flat,
        (createFlatController env s userId body (some files) upload order now).store
          = { s with flats := s.flats ++ [flat], nextFlatId := s.nextFlatId + 1 } ∧
        flat.amenities = .arr [] ∧
        (createFlatController env s userId body (some files) upload order now).response
          = some ⟨201, .obj [("success", .bool true),
              ("message", .str "Flat Submitted Successfully"), ("flat", flat.toJson)]⟩) ∧
    (∀ a msg, body.amenities = some a → a ≠ "" → env.jsonParse a = .error msg →
      (createFlatController env s userId body (some files) upload order now).store = s ∧
      (createFlatController env s userId body (some files) upload order now).response
        = some ⟨500, .obj [("success", .bool false),
            ("message", .str "Failed to create flat"), ("error", .str msg)]⟩) := by
  have hn : 0 < files.length := List.length_pos.mpr hfiles
  have hall := promiseAll_all_ok files.length upload url order hn hperm hok
  rw [createFlat_of_resolved env s userId body files upload order now _
    htitle haddress hprice hfiles hall]
  refine ⟨?_, ?_⟩
  · intro ham hjson haccept
    have hparse : parseAmenities env (body.amenities.getD "[]") = .ok (.arr []) := by
      rcases ham with h | h
      · rw [h]
        simpa [parseAmenities] using hjson
      · rw [h]
        simp [parseAmenities]
    obtain ⟨flat, hstore, _, ham', _, hresp⟩ :=
      createFlatRecord_ok env s userId (body.title.getD "") (body.address.getD "")
        (body.price.getD "") (body.description.getD "") (body.amenities.getD "[]")
        ((List.range files.length).map url) (uploadCalls env userId files) now (.arr [])
        hparse haccept
    exact ⟨flat, hstore, ham', hresp⟩
  · intro a msg ha hne herr
    have hparse : parseAmenities env (body.amenities.getD "[]") = .error msg := by
      rw [ha]
      simp [parseAmenities, hne, herr]
    rw [createFlatRecord_parse_error env s userId _ _ _ _ _ _ _ now msg hparse]
    exact ⟨rfl, rfl⟩

/-- Witness for C8 (amended): the amenities field is omitted and the listing is
persisted with empty amenities. -/
theorem createFlat_amenities_witness :
    ∃ flat : Flat,
      (createFlatController demoEnv sampleFlatStore 1 sampleBody (some sampleFiles)
          allUploaded [1, 2, 0] 500).store
        = { sampleFlatStore with flats := sampleFlatStore.flats ++ [flat],
                                 nextFlatId := sampleFlatStore.nextFlatId + 1 } ∧
      flat.amenities = .arr [] ∧
      (createFlatController demoEnv sampleFlatStore 1 sampleBody (some sampleFiles)
          allUploaded [1, 2, 0] 500).response
        = some ⟨201, .obj [("success", .bool true),
            ("message", .str "Flat Submitted Successfully"), ("flat", flat.toJson)]⟩ :=
  (createFlat_amenities demoEnv sampleFlatStore 1 sampleBody sampleFiles allUploaded
    [1, 2, 0] 500 sampleUrl rfl rfl rfl (by decide) (by decide) (fun _ _ => rfl)).1
    (Or.inl rfl) rfl (fun _ => rfl)

/-- C9: a createFlat request without files, `req.files` absent or empty, is
answered 400 whatever its fields are; no upload call is issued and the store
is unchanged. -/
theorem createFlat_without_files (env : Env) (s : Store) (userId : Int)
    (body : CreateFlatBody) (upload : Nat → Except String String) (order : List Nat)
    (now : Nat) :
    ((∃ b, (createFlatController env s userId body none upload order now).response
          = some ⟨400, b⟩) ∧
      (createFlatController env s userId body none upload order now).uploads = [] ∧
      (createFlatController env s userId body none upload order now).store = s) ∧
    ((∃ b, (createFlatController env s userId body (some []) upload order now).response
          = some ⟨400, b⟩) ∧
      (createFlatController env s userId body (some []) upload order now).uploads = [] ∧
      (createFlatController env s userId body (some []) upload order now).store = s) := by
  unfold createFlatController
  cases (!truthy body.title || !truthy body.address || !truthy body.price) with
  | true => exact ⟨⟨⟨_, rfl⟩, rfl, rfl⟩, ⟨⟨_, rfl⟩, rfl, rfl⟩⟩
  | false => exact ⟨⟨⟨_, rfl⟩, rfl, rfl⟩, ⟨⟨_, rfl⟩, rfl, rfl⟩⟩

/-! ## login -/

theorem login_reaches_user (env : Env) (s : Store) (e p : String) (now : Nat) (u : User)
    (he : e ≠ "") (hp : p ≠ "") (hu : s.findUserByEmail e = some u) :
    LoginController env s ⟨some e, some p⟩ now
      = if some e = env.ADMIN_EMAIL ∧ some p = env.ADMIN_PASSWORD then
          ⟨200, .obj [("message", .str "Admin LoggedIn Successfully"),
                      ("token", .str (env.jwtSign ⟨u.id, u.role⟩ now)), ("user", u.toJson)]⟩
        else if !env.compareSync p u.password then
          ⟨400, .obj [("message", .str "Invalid Password")]⟩
        else
          ⟨200, .obj [("message", .str "User LoggedIn Successfully"),
                      ("token", .str (env.jwtSign ⟨u.id, u.role⟩ now)), ("user", u.toJson)]⟩ := by
  have h1 : truthy (some e) = true := by simp [truthy, he]
  have h2 : truthy (some p) = true := by simp [truthy, hp]
  simp only [LoginController, h1, h2, Bool.not_true, Bool.or_self, Bool.false_eq_true,
    if_false, Option.getD_some, hu]

/-- C4: for a user `u` stored under the non-empty email `e` and a non-empty
password `p`, login answers 200 with a token exactly when `(e, p)` is the
configured administrator pair or `p` verifies against the stored hash of `u`;
the token is the one signed for the id and role of `u`. The administrator pair
succeeds whatever `compareSync` says of the stored password. In every other
case the answer is 400 "Invalid Password" and carries no token. -/
theorem login_succeeds_iff (env : Env) (s : Store) (e p : String) (now : Nat) (u : User)
    (he : e ≠ "") (hp : p ≠ "") (hu : s.findUserByEmail e = some u) :
    (((LoginController env s ⟨some e, some p⟩ now).status = 200 ∧
        (LoginController env s ⟨some e, some p⟩ now).body.field "token"
          = some (.str (env.jwtSign ⟨u.id, u.role⟩ now))) ↔
      ((some e = env.ADMIN_EMAIL ∧ some p = env.ADMIN_PASSWORD) ∨
        env.compareSync p u.password = true)) ∧
    ((some e = env.ADMIN_EMAIL ∧ some p = env.ADMIN_PASSWORD) →
      (LoginController env s ⟨some e, some p⟩ now).status = 200 ∧
      (LoginController env s ⟨some e, some p⟩ now).body.field "token"
        = some (.str (env.jwtSign ⟨u.id, u.role⟩ now))) ∧
    (¬ (some e = env.ADMIN_EMAIL ∧ some p = env.ADMIN_PASSWORD) →
      env.compareSync p u.password = false →
      (LoginController env s ⟨some e, some p⟩ now).status = 400 ∧
      (LoginController env s ⟨some e, some p⟩ now).body
        = .obj [("message", .str "Invalid Password")] ∧
      (LoginController env s ⟨some e, some p⟩ now).body.field "token" = none) := by
  rw [login_reaches_user env s e p now u he hp hu]
  by_cases hadmin : some e = env.ADMIN_EMAIL ∧ some p = env.ADMIN_PASSWORD
  · rw [if_pos hadmin]
    exact ⟨⟨fun _ => Or.inl hadmin, fun _ => ⟨rfl, rfl⟩⟩, fun _ => ⟨rfl, rfl⟩,
      fun h => absurd hadmin h⟩
  · rw [if_neg hadmin]
    cases hc : env.compareSync p u.password
    · rw [if_pos (show (!false) = true from rfl)]
      exact ⟨⟨fun h => absurd h.1 (by decide),
          fun h => h.elim (fun h => absurd h hadmin) (fun h => by cases h)⟩,
        fun h => absurd h hadmin, fun _ _ => ⟨rfl, rfl, rfl⟩⟩
    · rw [if_neg (show ¬ (!true) = true by decide)]
      exact ⟨⟨fun _ => Or.inr rfl, fun _ => ⟨rfl, rfl⟩⟩, fun h => absurd h hadmin,
        fun _ h => by cases h⟩

/-- Witness for C4: the administrator pair logs in although the stored password
of that account is not a hash, and a wrong password for an ordinary user is
answered 400 without a token. -/
theorem login_succeeds_iff_witness :
    ((LoginController demoEnv sampleUserStore ⟨some "admin@flats.test", some "break-glass"⟩
          1700000000000).status = 200 ∧
      (LoginController demoEnv sampleUserStore ⟨some "admin@flats.test", some "break-glass"⟩
          1700000000000).body.field "token" = some (.str (demoEnv.jwtSign ⟨2, "admin"⟩ 1700000000000))) ∧
    ((LoginController demoEnv sampleUserStore ⟨some "asha@flats.test", some "guess"⟩
          1700000000000).status = 400 ∧
      (LoginController demoEnv sampleUserStore ⟨some "asha@flats.test", some "guess"⟩
          1700000000000).body = .obj [("message", .str "Invalid Password")] ∧
      (LoginController demoEnv sampleUserStore ⟨some "asha@flats.test", some "guess"⟩
          1700000000000).body.field "token" = none) :=
  ⟨(login_succeeds_iff demoEnv sampleUserStore "admin@flats.test" "break-glass" 1700000000000 adminUser
      (by decide) (by decide) rfl).2.1 ⟨rfl, rfl⟩,
   (login_succeeds_iff demoEnv sampleUserStore "asha@flats.test" "guess" 1700000000000 sampleUser
      (by decide) (by decide) rfl).2.2 (by decide) rfl⟩

/-- C5 (the code at a successful login): on the hash-verified path and on the
administrator path alike, the `user` object of the 200 response has a
`password` field, and it holds the stored password of the account. -/
theorem login_response_exposes_hash :
    ((LoginController demoEnv sampleUserStore ⟨some "asha@flats.test", some "s3cret"⟩
          1700000000000).status = 200 ∧
      ((LoginController demoEnv sampleUserStore ⟨some "asha@flats.test", some "s3cret"⟩
          1700000000000).body.field "user").bind (JsVal.field "password")
        = some (.str sampleUser.password)) ∧
    ((LoginController demoEnv sampleUserStore ⟨some "admin@flats.test", some "break-glass"⟩
          1700000000000).status = 200 ∧
      ((LoginController demoEnv sampleUserStore ⟨some "admin@flats.test", some "break-glass"⟩
          1700000000000).body.field "user").bind (JsVal.field "password")
        = some (.str adminUser.password)) :=
  ⟨⟨rfl, rfl⟩, ⟨rfl, rfl⟩⟩

/-! ## register -/

theorem find_filter_ne (fields : List (String × JsVal)) (k k' : String) (h : k' ≠ k) :
    (fields.filter (fun kv => kv.1 != k)).find? (fun kv => kv.1 == k')
      = fields.find? (fun kv => kv.1 == k') := by
  induction fields with
  | nil => rfl
  | cons a t ih =>
    by_cases hak : a.1 = k
    · have h1 : (a.1 != k) = false := by simp [hak]
      have h2 : (a.1 == k') = false := by
        rw [hak]
        exact beq_false_of_ne (fun h' => h h'.symm)
      rw [List.filter_cons_of_neg (by simp [h1]), List.find?_cons, h2, ih]
    · have h1 : (a.1 != k) = true := by simp [hak]
      rw [List.filter_cons]
      simp only [h1, if_true]
      rw [List.find?_cons, List.find?_cons, ih]

theorem find_filter_self (fields : List (String × JsVal)) (k : String) :
    (fields.filter (fun kv => kv.1 != k)).find? (fun kv => kv.1 == k) = none := by
  rw [List.find?_eq_none]
  intro kv hkv
  have := (List.mem_filter.mp hkv).2
  simpa using this

/-- Removing a key leaves every other property of an object as it was. -/
theorem field_omit_ne (fields : List (String × JsVal)) (k k' : String) (h : k' ≠ k) :
    ((JsVal.obj fields).omit k).field k' = (JsVal.obj fields).field k' := by
  simp only [JsVal.omit, JsVal.field, find_filter_ne fields k k' h]

/-- The removed key is no longer a property of the object. -/
theorem field_omit_self (fields : List (String × JsVal)) (k : String) :
    ((JsVal.obj fields).omit k).field k = none := by
  simp only [JsVal.omit, JsVal.field, find_filter_self fields k, Option.map_none']

theorem keys_omit_self (fields : List (String × JsVal)) (k : String) :
    k ∉ ((JsVal.obj fields).omit k).keys := by
  simp only [JsVal.omit, JsVal.keys, List.mem_map, not_exists, not_and]
  intro kv hkv hk
  have := (List.mem_filter.mp hkv).2
  simp [hk] at this

/-- A registration that passes validation and finds the email free: the
outcome by the multer step and the storage call. -/
theorem register_of_valid (env : Env) (s : Store)
    (name email pw phoneNo address pincode : String) (file : Option RawFile)
    (upload : Except String String) (salt now : Nat)
    (hname : name ≠ "") (hemail : email ≠ "") (hpw : pw ≠ "") (hphone : phoneNo ≠ "")
    (haddress : address ≠ "") (hpin : pincode ≠ "")
    (hnew : s.findUserByEmail email = none) :
    RegisterController env s
        ⟨some name, some email, some pw, some phoneNo, some address, some pincode⟩
        file upload salt now
      = match uploadSingle file with
        | .error err =>
          ⟨some ⟨400, .obj [("message", .str
              (if err = .limitFileSize then "File size too large. Maximum 5MB allowed."
               else "Invalid file type. Only images are allowed."))]⟩, s, []⟩
        | .ok none =>
          ⟨some ⟨201, .obj [("message", .str "User Registered Successfully"),
              ("user", (s.createUser env name email (env.hashSync pw salt) phoneNo address
                  pincode none now).1.toJson.omit "password")]⟩,
            (s.createUser env name email (env.hashSync pw salt) phoneNo address
                  pincode none now).2, []⟩
        | .ok (some f) =>
          match upload with
          | .error _ =>
            ⟨some ⟨500, .obj [("message", .str "Profile image upload failed")]⟩, s,
              [⟨base64Image env f, "profile_images"⟩]⟩
          | .ok url =>
            ⟨some ⟨201, .obj [("message", .str "User Registered Successfully"),
                ("user", (s.createUser env name email (env.hashSync pw salt) phoneNo address
                    pincode (some url) now).1.toJson.omit "password")]⟩,
              (s.createUser env name email (env.hashSync pw salt) phoneNo address
                    pincode (some url) now).2, [⟨base64Image env f, "profile_images"⟩]⟩ := by
  have t1 : truthy (some name) = true := by simp [truthy, hname]
  have t2 : truthy (some email) = true := by simp [truthy, hemail]
  have t3 : truthy (some pw) = true := by simp [truthy, hpw]
  have t4 : truthy (some phoneNo) = true := by simp [truthy, hphone]
  have t5 : truthy (some address) = true := by simp [truthy, haddress]
  have t6 : truthy (some pincode) = true := by simp [truthy, hpin]
  unfold RegisterController
  cases hm : uploadSingle file with
  | error err => rfl
  | ok reqFile =>
    simp only [t1, t2, t3, t4, t5, t6, Bool.not_true, Bool.or_self, Bool.false_eq_true,
      if_false, Option.getD_some, hnew]
    cases reqFile with
    | none => rfl
    | some f =>
      cases upload with
      | error e => rfl
      | ok url => rfl

/-- Registration only ever stores a non-empty email: every user row of the
outcome was in the store before or has a non-empty email. -/
theorem register_stores_nonempty_email (env : Env) (s : Store) (body : RegisterBody)
    (file : Option RawFile) (upload : Except String String) (salt now : Nat) :
    ∀ u ∈ (RegisterController env s body file upload salt now).store.users,
      u ∈ s.users ∨ u.email ≠ "" := by
  unfold RegisterController
  cases uploadSingle file with
  | error err => exact fun u hu => Or.inl hu
  | ok reqFile =>
    simp only []
    by_cases hv : (!truthy body.name || !truthy body.email || !truthy body.password ||
        !truthy body.phoneNo || !truthy body.address || !truthy body.pincode) = true
    · rw [if_pos hv]
      exact fun u hu => Or.inl hu
    · rw [if_neg hv]
      have hmail : body.email.getD "" ≠ "" := by
        cases hb : body.email with
        | none => simp [hb, truthy] at hv
        | some e =>
          simp only [hb, truthy, Bool.or_eq_true, Bool.not_eq_true', not_or] at hv
          simpa using hv.1.1.1.1.2
      cases s.findUserByEmail (body.email.getD "") with
      | some found => exact fun u hu => Or.inl hu
      | none =>
        cases reqFile with
        | none =>
          intro u hu
          simp only [Store.createUser, List.mem_append, List.mem_singleton] at hu
          rcases hu with h | h
          · exact Or.inl h
          · exact Or.inr (by rw [h]; exact hmail)
        | some f =>
          cases upload with
          | error e => exact fun u hu => Or.inl hu
          | ok url =>
            intro u hu
            simp only [Except.map, Store.createUser, List.mem_append,
              List.mem_singleton] at hu
            rcases hu with h | h
            · exact Or.inl h
            · exact Or.inr (by rw [h]; exact hmail)

/-- What the insert of a registration stores and what the response shows of it. -/
theorem created_user_props (env : Env) (s : Store)
    (name email pw phoneNo address pincode : String) (img : Option String) (salt now : Nat) :
    ∃ user uj,
      (s.createUser env name email (env.hashSync pw salt) phoneNo address pincode img now).2
        = { s with users := s.users ++ [user], nextUserId := s.nextUserId + 1 } ∧
      .obj [("message", .str "User Registered Successfully"),
          ("user", (s.createUser env name email (env.hashSync pw salt) phoneNo address
            pincode img now).1.toJson.omit "password")]
        = JsVal.obj [("message", .str "User Registered Successfully"), ("user", uj)] ∧
      uj.field "password" = none ∧ "password" ∉ uj.keys ∧
      (∀ k, k ≠ "password" → uj.field k = user.toJson.field k) ∧
      user.password = env.hashSync pw salt ∧
      (env.hashSync pw salt ≠ pw → user.password ≠ pw) ∧
      user.name = name ∧ user.email = email ∧ user.phoneNo = phoneNo ∧
      user.address = address ∧ user.pincode = pincode := by
  refine ⟨(s.createUser env name email (env.hashSync pw salt) phoneNo address pincode img
      now).1, _, rfl, rfl, ?_, ?_, ?_, rfl, fun h => h, rfl, rfl, rfl, rfl, rfl⟩
  · exact field_omit_self _ "password"
  · exact keys_omit_self _ "password"
  · intro k hk
    exact field_omit_ne _ "password" k hk

/-- C6: a registration with the six required fields non-empty and an email
that the store does not hold yet. Whenever it is answered 201, one user row
has been appended to the store, the `user` object of the response has no
`password` field and agrees with the stored row on every other field, the
stored row carries the request fields, and its password is
`hashSync(password)` (so not the plaintext, for a hash that differs from it).
The answer is 201 whenever the multer step accepts the request and the
storage call, if a profile image was sent, succeeds. -/
theorem register_returns_user_without_password (env : Env) (s : Store)
    (name email pw phoneNo address pincode : String) (file : Option RawFile)
    (upload : Except String String) (salt now : Nat)
    (hname : name ≠ "") (hemail : email ≠ "") (hpw : pw ≠ "") (hphone : phoneNo ≠ "")
    (haddress : address ≠ "") (hpin : pincode ≠ "")
    (hnew : s.findUserByEmail email = none) :
    (∀ b, (RegisterController env s
          ⟨some name, some email, some pw, some phoneNo, some address, some pincode⟩
          file upload salt now).response = some ⟨201, b⟩ →
      ∃ user uj,
        (RegisterController env s
          ⟨some name, some email, some pw, some phoneNo, some address, some pincode⟩
          file upload salt now).store
          = { s with users := s.users ++ [user], nextUserId := s.nextUserId + 1 } ∧
        b = .obj [("message", .str "User Registered Successfully"), ("user", uj)] ∧
        uj.field "password" = none ∧ "password" ∉ uj.keys ∧
        (∀ k, k ≠ "password" → uj.field k = user.toJson.field k) ∧
        user.password = env.hashSync pw salt ∧
        (env.hashSync pw salt ≠ pw → user.password ≠ pw) ∧
        user.name = name ∧ user.email = email ∧ user.phoneNo = phoneNo ∧
        user.address = address ∧ user.pincode = pincode) ∧
    (∀ reqFile, uploadSingle file = .ok reqFile →
      (reqFile = none ∨ ∃ url, upload = .ok url) →
      ∃ b, (RegisterController env s
          ⟨some name, some email, some pw, some phoneNo, some address, some pincode⟩
          file upload salt now).response = some ⟨201, b⟩) := by
  rw [register_of_valid env s name email pw phoneNo address pincode file upload salt now
    hname hemail hpw hphone haddress hpin hnew]
  cases hm : uploadSingle file with
  | error err =>
    refine ⟨?_, ?_⟩
    · intro b h
      simp at h
    · intro reqFile h
      cases h
  | ok reqFile =>
    cases reqFile with
    | none =>
      refine ⟨?_, fun _ _ _ => ⟨_, rfl⟩⟩
      intro b h
      simp only [Option.some.injEq, Response.mk.injEq, true_and] at h
      obtain ⟨user, uj, h1, h2, h3⟩ :=
        created_user_props env s name email pw phoneNo address pincode none salt now
      exact ⟨user, uj, h1, h ▸ h2, h3⟩
    | some f =>
      cases upload with
      | error e =>
        refine ⟨?_, ?_⟩
        · intro b h
          simp at h
        · intro reqFile h hup
          have hr : reqFile = some f := by
            injection h with h
            exact h.symm
          rcases hup with hnone | ⟨url, hurl⟩
          · rw [hr] at hnone
            cases hnone
          · cases hurl
      | ok url =>
        refine ⟨?_, fun _ _ _ => ⟨_, rfl⟩⟩
        intro b h
        simp only [Option.some.injEq, Response.mk.injEq, true_and] at h
        obtain ⟨user, uj, h1, h2, h3⟩ :=
          created_user_props env s name email pw phoneNo address pincode (some url) salt now
        exact ⟨user, uj, h1, h ▸ h2, h3⟩

/-- Witness for C6: a new user registers without a profile image. -/
theorem register_returns_user_without_password_witness :
    ∃ (b : JsVal) (user : User) (uj : JsVal), (RegisterController demoEnv sampleUserStore
        ⟨some "Ravi", some "ravi@flats.test", some "pa55", some "5550123",
          some "9 Park Lane", some "500003"⟩ none (.error "unused") 7 70).response
        = some ⟨201, b⟩ ∧
      b = .obj [("message", .str "User Registered Successfully"), ("user", uj)] ∧
      uj.field "password" = none ∧ user.password = digestPa55 ∧
      uj.field "email" = some (.str "ravi@flats.test") := by
  have h := register_returns_user_without_password demoEnv sampleUserStore "Ravi"
    "ravi@flats.test" "pa55" "5550123" "9 Park Lane" "500003" none (.error "unused") 7 70
    (by decide) (by decide) (by decide) (by decide) (by decide) (by decide) rfl
  obtain ⟨b, hb⟩ := h.2 none rfl (Or.inl rfl)
  obtain ⟨user, uj, _, hbody, hnopw, _, hsame, hhash, _, _, hmail, _⟩ := h.1 b hb
  refine ⟨b, user, uj, hb, hbody, hnopw, hhash, ?_⟩
  rw [hsame "email" (by decide)]
  simp [User.toJson, JsVal.field, hmail]

/-! ## register: email already held -/

theorem findUserByEmail_of_mem (s : Store) (e : String) (h : ∃ u ∈ s.users, u.email = e) :
    ∃ found, s.findUserByEmail e = some found := by
  obtain ⟨u, hu, he⟩ := h
  cases hf : s.findUserByEmail e with
  | some found => exact ⟨found, rfl⟩
  | none =>
    unfold Store.findUserByEmail at hf
    have := List.find?_eq_none.mp hf u hu
    simp [he] at this

/-- C12 (as stated, on the code): the store holds a user with the email
`asha@flats.test`; a registration with that email and no name is answered
"All fields are required", and one whose file part is not an image is answered
"Invalid file type. Only images are allowed.", neither "User already exists". -/
theorem register_duplicate_not_conflict :
    sampleUserStore.findUserByEmail "asha@flats.test" = some sampleUser ∧
    (RegisterController demoEnv sampleUserStore namelessBody none (.error "unused") 7
        70).response = some ⟨400, .obj [("message", .str "All fields are required")]⟩ ∧
    (RegisterController demoEnv sampleUserStore duplicateBody
        (some { originalname := "cv.pdf", mimetype := "application/pdf", size := 2048,
                buffer := [37, 80, 68, 70] })
        (.error "unused") 7 70).response
      = some ⟨400, .obj [("message", .str "Invalid file type. Only images are allowed.")]⟩ :=
  ⟨rfl, rfl, rfl⟩

/-- C12 (amended): the store holds a user with email `e` and a registration
request carries `e`. The request is answered 400, the store is unchanged and
no upload is issued. The answer is "User already exists" when the multer step
accepts the file part and the six required fields are non-empty; it is "All
fields are required" when the multer step accepts the file part and a required
field is missing or empty; it is the multer message when the file part is
refused. -/
theorem register_existing_email (env : Env) (s : Store) (body : RegisterBody)
    (file : Option RawFile) (upload : Except String String) (salt now : Nat) (e : String)
    (hemail : body.email = some e) (hheld : ∃ u ∈ s.users, u.email = e) :
    (RegisterController env s body file upload salt now).store = s ∧
    (RegisterController env s body file upload salt now).uploads = [] ∧
    (∃ b, (RegisterController env s body file upload salt now).response = some ⟨400, b⟩) ∧
    (∀ reqFile, uploadSingle file = .ok reqFile →
      ((truthy body.name = true ∧ truthy body.email = true ∧ truthy body.password = true ∧
          truthy body.phoneNo = true ∧ truthy body.address = true ∧
          truthy body.pincode = true) →
        (RegisterController env s body file upload salt now).response
          = some ⟨400, .obj [("message", .str "User already exists")]⟩) ∧
      (¬ (truthy body.name = true ∧ truthy body.email = true ∧ truthy body.password = true ∧
          truthy body.phoneNo = true ∧ truthy body.address = true ∧
          truthy body.pincode = true) →
        (RegisterController env s body file upload salt now).response
          = some ⟨400, .obj [("message", .str "All fields are required")]⟩)) ∧
    (∀ err, uploadSingle file = .error err →
      (RegisterController env s body file upload salt now).response
        = some ⟨400, .obj [("message", .str
            (if err = .limitFileSize then "File size too large. Maximum 5MB allowed."
             else "Invalid file type. Only images are allowed."))]⟩) := by
  obtain ⟨found, hfound⟩ := findUserByEmail_of_mem s e hheld
  unfold RegisterController
  cases hm : uploadSingle file with
  | error err =>
    refine ⟨rfl, rfl, ⟨_, rfl⟩, ?_, ?_⟩
    · intro reqFile h
      cases h
    · intro err' h
      cases h
      rfl
  | ok reqFile =>
    simp only []
    by_cases hv : (!truthy body.name || !truthy body.email || !truthy body.password ||
        !truthy body.phoneNo || !truthy body.address || !truthy body.pincode) = true
    · rw [if_pos hv]
      refine ⟨rfl, rfl, ⟨_, rfl⟩, ?_, ?_⟩
      · intro _ _
        refine ⟨?_, fun _ => rfl⟩
        intro hall
        obtain ⟨h1, h2, h3, h4, h5, h6⟩ := hall
        simp [h1, h2, h3, h4, h5, h6] at hv
      · intro err h
        cases h
    · rw [if_neg hv]
      have hget : body.email.getD "" = e := by simp [hemail]
      rw [hget, hfound]
      refine ⟨rfl, rfl, ⟨_, rfl⟩, ?_, ?_⟩
      · intro _ _
        refine ⟨fun _ => rfl, ?_⟩
        intro hnot
        exfalso
        apply hnot
        simp only [Bool.or_eq_true, Bool.not_eq_true', not_or, Bool.not_eq_false] at hv
        exact ⟨hv.1.1.1.1.1, hv.1.1.1.1.2, hv.1.1.1.2, hv.1.1.2, hv.1.2, hv.2⟩
      · intro err h
        cases h

/-- Witness for C12 (amended): the email of `sampleUser` is registered again
with every field filled, and without a name. -/
theorem register_existing_email_witness :
    ((RegisterController demoEnv sampleUserStore duplicateBody none (.error "unused") 7
        70).store = sampleUserStore ∧
      (RegisterController demoEnv sampleUserStore duplicateBody none (.error "unused") 7
        70).response = some ⟨400, .obj [("message", .str "User already exists")]⟩) ∧
    (RegisterController demoEnv sampleUserStore namelessBody none (.error "unused") 7
        70).response = some ⟨400, .obj [("message", .str "All fields are required")]⟩ :=
  ⟨⟨(register_existing_email demoEnv sampleUserStore duplicateBody none (.error "unused") 7 70
        "asha@flats.test" rfl ⟨sampleUser, by simp [sampleUserStore], rfl⟩).1,
    ((register_existing_email demoEnv sampleUserStore duplicateBody none (.error "unused") 7 70
        "asha@flats.test" rfl ⟨sampleUser, by simp [sampleUserStore], rfl⟩).2.2.2.1
        none rfl).1 ⟨rfl, rfl, rfl, rfl, rfl, rfl⟩⟩,
   ((register_existing_email demoEnv sampleUserStore namelessBody none (.error "unused") 7 70
        "asha@flats.test" rfl ⟨sampleUser, by simp [sampleUserStore], rfl⟩).2.2.2.1
        none rfl).2 (by
          intro h
          exact absurd h.1 (by decide))⟩

/-! ## request gate -/

theorem gate_of_invalid (env : Env) (s : Store) (header : Option String) (token e : String)
    (now : Nat) (ht : extractToken header = some token) (hne : token ≠ "")
    (hv : env.jwtVerify token now = .error e) :
    authMiddleware env s header now
      = .reject ⟨401, .obj [("success", .bool false),
          ("message", .str "Invalid or expired token"), ("error", .str e)]⟩ := by
  have h1 : truthy (some token) = true := by simp [truthy, hne]
  simp only [authMiddleware, ht, h1, Bool.not_true, Bool.false_eq_true, if_false,
    Option.getD_some, hv]

/-- C10 (as stated, on the code): three tokens that fail verification, one
structurally corrupt, one with a bad signature, one expired, are all answered
401, but the `error` field of the body names the reason, so the responses differ. -/
theorem gate_error_detail_differs :
    ((authMiddleware demoEnv sampleUserStore (some "garbage") 1700000500000).response?.bind
        (fun r => r.body.field "error")) = some (.str "jwt malformed") ∧
    ((authMiddleware demoEnv sampleUserStore (some forgedToken) 1700000500000).response?.bind
        (fun r => r.body.field "error")) = some (.str "invalid signature") ∧
    ((authMiddleware demoEnv sampleUserStore (some validToken) 1700090000000).response?.bind
        (fun r => r.body.field "error")) = some (.str "jwt expired") ∧
    (authMiddleware demoEnv sampleUserStore (some "garbage") 1700000500000).response?.map
        Response.status = some 401 ∧
    (authMiddleware demoEnv sampleUserStore (some forgedToken) 1700000500000).response?.map
        Response.status = some 401 ∧
    (authMiddleware demoEnv sampleUserStore (some validToken) 1700090000000).response?.map
        Response.status = some 401 ∧
    authMiddleware demoEnv sampleUserStore (some "garbage") 1700000500000
      ≠ authMiddleware demoEnv sampleUserStore (some forgedToken) 1700000500000 := by
  refine ⟨rfl, rfl, rfl, rfl, rfl, rfl, ?_⟩
  intro h
  have h2 := congrArg (fun g => g.response?.bind (fun r => r.body.field "error")) h
  change some (JsVal.str "jwt malformed") = some (JsVal.str "invalid signature") at h2
  simp at h2

/-- C10 (amended): two tokens that both fail verification are both answered
401 with `success: false` and the message "Invalid or expired token"; the body
also carries the verifier's error message in its `error` field, so the two
responses are equal exactly when the verifier gave the same message for both. -/
theorem gate_invalid_token_response (env : Env) (s : Store) (h1 h2 : Option String)
    (t1 t2 e1 e2 : String) (now : Nat)
    (ht1 : extractToken h1 = some t1) (hne1 : t1 ≠ "")
    (hv1 : env.jwtVerify t1 now = .error e1)
    (ht2 : extractToken h2 = some t2) (hne2 : t2 ≠ "")
    (hv2 : env.jwtVerify t2 now = .error e2) :
    authMiddleware env s h1 now
      = .reject ⟨401, .obj [("success", .bool false),
          ("message", .str "Invalid or expired token"), ("error", .str e1)]⟩ ∧
    authMiddleware env s h2 now
      = .reject ⟨401, .obj [("success", .bool false),
          ("message", .str "Invalid or expired token"), ("error", .str e2)]⟩ ∧
    (authMiddleware env s h1 now = authMiddleware env s h2 now ↔ e1 = e2) := by
  rw [gate_of_invalid env s h1 t1 e1 now ht1 hne1 hv1,
    gate_of_invalid env s h2 t2 e2 now ht2 hne2 hv2]
  refine ⟨rfl, rfl, ?_, ?_⟩
  · intro h
    simpa using h
  · intro h
    rw [h]

/-- Witness for C10 (amended): a corrupt token and a token with a bad
signature, the latter sent as a two-part header value. -/
theorem gate_invalid_token_response_witness :
    authMiddleware demoEnv sampleUserStore (some "garbage") 1700000500000
      = .reject ⟨401, .obj [("success", .bool false),
          ("message", .str "Invalid or expired token"), ("error", .str "jwt malformed")]⟩ ∧
    authMiddleware demoEnv sampleUserStore (some ("Bearer " ++ forgedToken)) 1700000500000
      = .reject ⟨401, .obj [("success", .bool false),
          ("message", .str "Invalid or expired token"),
          ("error", .str "invalid signature")]⟩ :=
  ⟨(gate_invalid_token_response demoEnv sampleUserStore (some "garbage")
      (some ("Bearer " ++ forgedToken)) "garbage" forgedToken "jwt malformed"
      "invalid signature" 1700000500000 rfl (by decide) rfl rfl (by decide) rfl).1,
   (gate_invalid_token_response demoEnv sampleUserStore (some "garbage")
      (some ("Bearer " ++ forgedToken)) "garbage" forgedToken "jwt malformed"
      "invalid signature" 1700000500000 rfl (by decide) rfl rfl (by decide) rfl).2.1⟩

/-! ## request gate: token extraction -/

theorem splitOnChar_no_sep (sep : Char) (cs : List Char) (h : sep ∉ cs) :
    splitOnChar sep cs = [cs] := by
  induction cs with
  | nil => rfl
  | cons c t ih =>
    have hc : c ≠ sep := fun hc => h (hc ▸ List.mem_cons_self c t)
    have ht : sep ∉ t := fun ht => h (List.mem_cons_of_mem c ht)
    simp only [splitOnChar, hc, if_false, ih ht]

theorem splitOnChar_ne_nil (sep : Char) (cs : List Char) : splitOnChar sep cs ≠ [] := by
  induction cs with
  | nil => simp [splitOnChar]
  | cons c t ih =>
    unfold splitOnChar
    split
    · simp
    · split <;> simp

/-- The first piece ends at the first separator. -/
theorem splitOnChar_append (sep : Char) (a b : List Char) (h : sep ∉ a) :
    splitOnChar sep (a ++ sep :: b) = a :: splitOnChar sep b := by
  induction a with
  | nil => simp [splitOnChar]
  | cons c t ih =>
    have hc : c ≠ sep := fun hc => h (hc ▸ List.mem_cons_self c t)
    have ht : sep ∉ t := fun ht => h (List.mem_cons_of_mem c ht)
    rw [List.cons_append, splitOnChar, if_neg hc, ih ht]

theorem gate_eq_gateWithToken (env : Env) (s : Store) (header : Option String) (now : Nat)
    (token : String) (ht : extractToken header = some token) (hne : token ≠ "") :
    authMiddleware env s header now = gateWithToken env s token now := by
  have h1 : truthy (some token) = true := by simp [truthy, hne]
  simp only [authMiddleware, ht, h1, Bool.not_true, Bool.false_eq_true, if_false,
    Option.getD_some, gateWithToken]

theorem data_ne_nil (t : String) (h : t ≠ "") : t.data ≠ [] := by
  intro hd
  apply h
  cases t with
  | mk data =>
    simp only at hd
    rw [hd]

/-- C11: the token the request gate verifies, by the value of the `auth-token`
header. An absent or empty header is answered 401 "No authentication token
provided", whatever the verifier is. A header that is one non-empty token `t`
without a space has `t` verified: the gate continues as `gateWithToken` on
`t`. A two-part header `scheme t`, with one space between a scheme and a
non-empty token `t` that contain no space, has `t` verified. -/
theorem gate_token_extraction (env : Env) (s : Store) (now : Nat) :
    (authMiddleware env s none now
        = .reject ⟨401, .obj [("success", .bool false),
            ("message", .str "No authentication token provided")]⟩ ∧
      authMiddleware env s (some "") now
        = .reject ⟨401, .obj [("success", .bool false),
            ("message", .str "No authentication token provided")]⟩) ∧
    (∀ t : String, t ≠ "" → ' ' ∉ t.data →
      extractToken (some t) = some t ∧
      authMiddleware env s (some t) now = gateWithToken env s t now) ∧
    (∀ scheme t : String, t ≠ "" → ' ' ∉ scheme.data → ' ' ∉ t.data →
      extractToken (some (scheme ++ " " ++ t)) = some t ∧
      authMiddleware env s (some (scheme ++ " " ++ t)) now = gateWithToken env s t now) := by
  refine ⟨⟨rfl, rfl⟩, ?_, ?_⟩
  · intro t hne hsp
    have hx : extractToken (some t) = some t := by
      simp only [extractToken, splitOnChar_no_sep ' ' t.data hsp]
      rfl
    exact ⟨hx, gate_eq_gateWithToken env s (some t) now t hx hne⟩
  · intro scheme t hne hsc hsp
    have hdata : (scheme ++ " " ++ t).data = scheme.data ++ ' ' :: t.data := by
      simp [String.data_append]
    have hx : extractToken (some (scheme ++ " " ++ t)) = some t := by
      simp only [extractToken, hdata, splitOnChar_append ' ' scheme.data t.data hsc,
        splitOnChar_no_sep ' ' t.data hsp]
      cases hd : t.data with
      | nil => exact absurd hd (data_ne_nil t hne)
      | cons c cs =>
        have : t = String.mk (c :: cs) := by
          rw [← hd]
        simp [this]
    exact ⟨hx, gate_eq_gateWithToken env s _ now t hx hne⟩

/-- Witness for C11: the raw token and the `Bearer` form of the same token
are verified alike, here rejected for the forged signature. -/
theorem gate_token_extraction_witness :
    (extractToken (some forgedToken) = some forgedToken ∧
      authMiddleware demoEnv sampleUserStore (some forgedToken) 1700000500000
        = gateWithToken demoEnv sampleUserStore forgedToken 1700000500000) ∧
    (extractToken (some ("Bearer" ++ " " ++ forgedToken)) = some forgedToken ∧
      authMiddleware demoEnv sampleUserStore (some ("Bearer" ++ " " ++ forgedToken))
          1700000500000
        = gateWithToken demoEnv sampleUserStore forgedToken 1700000500000) :=
  ⟨(gate_token_extraction demoEnv sampleUserStore 1700000500000).2.1 forgedToken
      (by decide) (by decide),
   (gate_token_extraction demoEnv sampleUserStore 1700000500000).2.2 "Bearer" forgedToken
      (by decide) (by decide) (by decide)⟩

/-! ## markSold -/

/-- C2: when the store returns a listing for the caller and the listing id, two
consecutive `markSold` calls behave as follows. After the first call the
listing is `sold` (and if it was not sold before, the call answers 200 and
the row is the old row with status `sold`, the buyer `sold_to_user_id || null`
and the sale time of that call). The second call answers 400 "Flat is already
sold" and returns the store of the first call unchanged, whatever buyer id and
time it carries. -/
theorem markSold_twice (s : Store) (userId flatId : Int) (b1 b2 : Option Int) (t1 t2 : Nat)
    (flat : Flat) (hown : s.findOwnedFlat flatId userId = some flat) :
    (∃ flat1, (markFlatSoldController s userId flatId b1 t1).2.findOwnedFlat flatId userId
          = some flat1 ∧ flat1.status = .sold ∧
        (flat.status ≠ .sold →
          (markFlatSoldController s userId flatId b1 t1).1.status = 200 ∧
          flat1 = flat.markSold (orNull b1) t1)) ∧
    (markFlatSoldController (markFlatSoldController s userId flatId b1 t1).2
        userId flatId b2 t2).1.status = 400 ∧
    (markFlatSoldController (markFlatSoldController s userId flatId b1 t1).2
        userId flatId b2 t2).1.body = .obj [("message", .str "Flat is already sold")] ∧
    (markFlatSoldController (markFlatSoldController s userId flatId b1 t1).2
        userId flatId b2 t2).2 = (markFlatSoldController s userId flatId b1 t1).2 := by
  by_cases hs : flat.status = .sold
  · rw [markSold_of_sold s userId flatId b1 t1 flat hown hs,
      markSold_of_sold s userId flatId b2 t2 flat hown hs]
    exact ⟨⟨flat, hown, hs, fun h => absurd hs h⟩, rfl, rfl, rfl⟩
  · obtain ⟨body, h1⟩ := markSold_of_unsold s userId flatId b1 t1 flat hown hs
    have hfind := findOwned_soldRows s flatId userId (orNull b1) t1 flat hown
    rw [h1, markSold_of_sold _ userId flatId b2 t2 _ hfind rfl]
    exact ⟨⟨flat.markSold (orNull b1) t1, hfind, rfl, fun _ => ⟨rfl, rfl⟩⟩, rfl, rfl, rfl⟩

/-- Witness for C2 on `sampleFlatStore`: owner 1 sells listing 7 to user 4, then
tries again with buyer 5. -/
theorem markSold_twice_witness :
    sampleFlatStore.findOwnedFlat 7 1 = some sampleFlat ∧
    (markFlatSoldController (markFlatSoldController sampleFlatStore 1 7 (some 4) 150).2
        1 7 (some 5) 160).1.status = 400 ∧
    (markFlatSoldController (markFlatSoldController sampleFlatStore 1 7 (some 4) 150).2
        1 7 (some 5) 160).1.body = .obj [("message", .str "Flat is already sold")] ∧
    (markFlatSoldController (markFlatSoldController sampleFlatStore 1 7 (some 4) 150).2
        1 7 (some 5) 160).2 = (markFlatSoldController sampleFlatStore 1 7 (some 4) 150).2 :=
  ⟨rfl, (markSold_twice sampleFlatStore 1 7 (some 4) (some 5) 150 160 sampleFlat rfl).2⟩

/-- C3: `markSold` on an existing listing that the caller does not own answers
exactly as `markSold` on an id that no listing has: the same response, with
status 404, and the store is returned unchanged in both cases, whatever the
status of the existing listing. -/
theorem markSold_not_owner_same_as_missing (s : Store) (userId id1 id2 : Int)
    (b1 b2 : Option Int) (t1 t2 : Nat)
    (hexists : ∃ f ∈ s.flats, f.id = id1)
    (hother : ∀ f ∈ s.flats, f.id = id1 → f.user_id ≠ userId)
    (hmissing : ∀ f ∈ s.flats, f.id ≠ id2) :
    (markFlatSoldController s userId id1 b1 t1).1.status = 404 ∧
    (markFlatSoldController s userId id1 b1 t1).1
      = (markFlatSoldController s userId id2 b2 t2).1 ∧
    (markFlatSoldController s userId id1 b1 t1).2 = s ∧
    (markFlatSoldController s userId id2 b2 t2).2 = s := by
  have _ := hexists
  have hn1 : s.findOwnedFlat id1 userId = none := by
    unfold Store.findOwnedFlat
    rw [List.find?_eq_none]
    intro f hf
    by_cases hid : f.id = id1
    · have hb : (f.user_id == userId) = false := beq_false_of_ne (hother f hf hid)
      simp [hb]
    · have hb : (f.id == id1) = false := beq_false_of_ne hid
      simp [hb]
  have hn2 : s.findOwnedFlat id2 userId = none := by
    unfold Store.findOwnedFlat
    rw [List.find?_eq_none]
    intro f hf
    have hb : (f.id == id2) = false := beq_false_of_ne (hmissing f hf)
    simp [hb]
  simp [markFlatSoldController, hn1, hn2]

/-- Witness for C3: user 2 on the sold listing 7 of user 1, against the unused id 99. -/
theorem markSold_not_owner_same_as_missing_witness :
    (markFlatSoldController soldFlatStore 2 7 none 200).1.status = 404 ∧
    (markFlatSoldController soldFlatStore 2 7 none 200).1
      = (markFlatSoldController soldFlatStore 2 99 (some 3) 300).1 ∧
    (markFlatSoldController soldFlatStore 2 7 none 200).2 = soldFlatStore ∧
    (markFlatSoldController soldFlatStore 2 99 (some 3) 300).2 = soldFlatStore :=
  markSold_not_owner_same_as_missing soldFlatStore 2 7 99 none (some 3) 200 300
    ⟨sampleFlat.markSold (some 4) 150, by simp [soldFlatStore], rfl⟩
    (by intro f hf _; simp [soldFlatStore] at hf; subst hf; decide)
    (by intro f hf; simp [soldFlatStore] at hf; subst hf; decide)

/-! ## Listing status is monotonic -/

theorem rank_sold_le (st : Status) (h : Status.sold.rank ≤ st.rank) : st = .sold := by
  cases st
  · simp [Status.rank] at h
  · simp [Status.rank] at h
  · rfl

/-- A table whose old rows were each rewritten without lowering the status,
and which gained pending rows only, keeps every old row at its place. -/
theorem rows_advance (old new extra : List Flat) (g : Flat → Flat)
    (hnew : new = old.map g ++ extra)
    (hg : ∀ f, (g f).id = f.id ∧ (g f).user_id = f.user_id ∧ f.status.rank ≤ (g f).status.rank)
    (hextra : ∀ x ∈ extra, x.status = .pending) :
    (∀ (i : Nat) (f : Flat), old[i]? = some f →
      ∃ f' : Flat, new[i]? = some f' ∧ f'.id = f.id ∧ f'.user_id = f.user_id ∧
        f.status.rank ≤ f'.status.rank ∧ (f.status = .sold → f'.status = .sold)) ∧
    (∀ (i : Nat) (f' : Flat), old.length ≤ i → new[i]? = some f' → f'.status = .pending) := by
  subst hnew
  refine ⟨?_, ?_⟩
  · intro i f hf
    have hi : i < old.length := by
      rcases Nat.lt_or_ge i old.length with h | h
      · exact h
      · rw [List.getElem?_eq_none h] at hf
        cases hf
    refine ⟨g f, ?_, (hg f).1, (hg f).2.1, (hg f).2.2, ?_⟩
    · rw [List.getElem?_append_left (by simpa using hi), List.getElem?_map, hf]
      rfl
    · intro hs
      apply rank_sold_le
      rw [← hs]
      exact (hg f).2.2
  · intro i f' hi hf'
    rw [List.getElem?_append_right (by simpa using hi)] at hf'
    exact hextra f' (List.getElem?_mem hf')

theorem register_flats (env : Env) (s : Store) (body : RegisterBody) (file : Option RawFile)
    (upload : Except String String) (salt now : Nat) :
    (RegisterController env s body file upload salt now).store.flats = s.flats := by
  unfold RegisterController
  cases uploadSingle file with
  | error err => rfl
  | ok reqFile =>
    simp only []
    split
    · rfl
    · cases s.findUserByEmail (body.email.getD "") with
      | some found => rfl
      | none =>
        cases reqFile with
        | none => rfl
        | some f =>
          cases upload with
          | error e => rfl
          | ok url => rfl

theorem updateProfileImage_flats (env : Env) (s : Store) (userId : Int) (file : Option RawFile)
    (upload : Except String String) (storeError : String) (now : Nat) :
    (updateProfileImageController env s userId file upload storeError now).store.flats
      = s.flats := by
  unfold updateProfileImageController
  cases uploadSingle file with
  | error err => rfl
  | ok reqFile =>
    cases reqFile with
    | none => rfl
    | some f =>
      cases upload with
      | error e => rfl
      | ok url =>
        simp only [Store.updateProfileImage]
        cases s.users.find? (fun u => u.id == userId) with
        | none => rfl
        | some u => rfl

theorem markSold_flats (s : Store) (userId flatId : Int) (buyer : Option Int) (now : Nat) :
    (markFlatSoldController s userId flatId buyer now).2.flats = s.flats ∨
    (markFlatSoldController s userId flatId buyer now).2.flats
      = s.flats.map (fun g => if g.id = flatId then g.markSold (orNull buyer) now else g) := by
  unfold markFlatSoldController
  cases s.findOwnedFlat flatId userId with
  | none => exact Or.inl rfl
  | some flat =>
    simp only []
    split
    · exact Or.inl rfl
    · simp only [Store.updateFlatSold]
      cases s.flats.find? (fun f => f.id == flatId) with
      | none => exact Or.inl rfl
      | some f => exact Or.inr rfl

theorem createFlat_flats (env : Env) (s : Store) (userId : Int) (body : CreateFlatBody)
    (files : Option (List RawFile)) (upload : Nat → Except String String)
    (order : List Nat) (now : Nat) :
    (createFlatController env s userId body files upload order now).store.flats = s.flats ∨
    ∃ flat, flat.status = .pending ∧
      (createFlatController env s userId body files upload order now).store.flats
        = s.flats ++ [flat] := by
  unfold createFlatController
  simp only []
  split
  · exact Or.inl rfl
  · split
    · exact Or.inl rfl
    · exact Or.inl rfl
    · split
      · exact Or.inl rfl
      · exact Or.inl rfl
      · rename_i imageUrls _
        rcases createFlatRecord_cases env s userId (body.title.getD "") (body.address.getD "")
            (body.price.getD "") (body.description.getD "") (body.amenities.getD "[]")
            imageUrls (uploadCalls env userId (_ :: _)) now with h | ⟨flat, hstore, _, hst, _⟩
        · exact Or.inl (by rw [h.1])
        · exact Or.inr ⟨flat, hst, by rw [hstore]⟩

/-- C13: for every store and every operation of the core (register, login,
createFlat, markSold, updateProfileImage, the two listing queries), every
listing of the store before the operation is at the same place afterwards,
with the same id and owner and a status that is not earlier in the order
pending, approved, sold; a sold listing is still sold; and every listing that
was not there before has status pending. -/
theorem status_monotonic (env : Env) (s : Store) (op : Operation) :
    (∀ (i : Nat) (f : Flat), s.flats[i]? = some f →
      ∃ f' : Flat, (op.run env s).2.flats[i]? = some f' ∧ f'.id = f.id ∧ f'.user_id = f.user_id ∧
        f.status.rank ≤ f'.status.rank ∧ (f.status = .sold → f'.status = .sold)) ∧
    (∀ (i : Nat) (f' : Flat), s.flats.length ≤ i → (op.run env s).2.flats[i]? = some f' →
      f'.status = .pending) := by
  have hid : ∀ f : Flat, (id f).id = f.id ∧ (id f).user_id = f.user_id ∧
      f.status.rank ≤ (id f).status.rank := fun f => ⟨rfl, rfl, le_refl _⟩
  have same : ∀ new : List Flat, new = s.flats →
      (∀ (i : Nat) (f : Flat), s.flats[i]? = some f →
        ∃ f' : Flat, new[i]? = some f' ∧ f'.id = f.id ∧ f'.user_id = f.user_id ∧
          f.status.rank ≤ f'.status.rank ∧ (f.status = .sold → f'.status = .sold)) ∧
      (∀ (i : Nat) (f' : Flat), s.flats.length ≤ i → new[i]? = some f' → f'.status = .pending) := by
    intro new hnew
    exact rows_advance s.flats new [] id (by simp [hnew]) hid (by simp)
  cases op with
  | register body file upload salt now =>
    exact same _ (register_flats env s body file upload salt now)
  | login body now => exact same _ rfl
  | createFlat userId body files upload order now =>
    rcases createFlat_flats env s userId body files upload order now with h | ⟨flat, hst, h⟩
    · exact same _ h
    · exact rows_advance s.flats _ [flat] id (by simp [Operation.run, h]) hid (by simpa using hst)
  | markSold userId flatId buyer now =>
    rcases markSold_flats s userId flatId buyer now with h | h
    · exact same _ h
    · refine rows_advance s.flats _ []
        (fun g => if g.id = flatId then g.markSold (orNull buyer) now else g)
        (by simp [Operation.run, h]) ?_ (by simp)
      intro f
      by_cases hf : f.id = flatId
      · simp only [hf, if_true, Flat.markSold, Status.rank, true_and]
        cases f.status <;> simp [Status.rank]
      · simp only [hf, if_false, le_refl, and_self]
  | updateProfileImage userId file upload storeError now =>
    exact same _ (updateProfileImage_flats env s userId file upload storeError now)
  | listApproved => exact same _ rfl
  | listOwned userId => exact same _ rfl

/-- Witness for C13: the owner sells the pending listing at place 0 of
`sampleMarket`; the listing is still at place 0, with the same id and owner,
and its status has not moved back. -/
theorem status_monotonic_witness :
    sampleMarket.flats[0]? = some sampleFlat ∧
    ∃ f' : Flat,
      ((Operation.markSold 1 7 (some 4) 150).run demoEnv sampleMarket).2.flats[0]? = some f' ∧
      f'.id = sampleFlat.id ∧ f'.user_id = sampleFlat.user_id ∧
      sampleFlat.status.rank ≤ f'.status.rank ∧
      (sampleFlat.status = .sold → f'.status = .sold) :=
  ⟨rfl, (status_monotonic demoEnv sampleMarket (.markSold 1 7 (some 4) 150)).1 0 sampleFlat rfl⟩

end FlatBroker
